import Mathlib

/-!
# Lambda Cloud Terraform provider: instance lifecycle

A shallow embedding of `internal/provider/provider.go`,
`internal/provider/resource_instance.go` and
`internal/provider/data_source_instance_types.go`.

Conventions of the embedding:

* A Go `error` is represented by its message (the only thing the provider
  ever does with an error is to format it with `%s`).
* The HTTP client is a function of the requests sent so far and of the request
  being sent; every helper returns the extended list of sent requests, so the
  remote calls an operation issues can be read off its result.
* Code of the Go standard library whose outcome depends on data the provider
  does not control (`url.Parse` inside `http.NewRequestWithContext`, and
  `json.Decoder.Decode` on the three response types) is a field of `Stdlib`;
  theorems quantify over it.
* `tflog` calls and the deferred `Body.Close` have no effect on the results
  and are left out.
-/

namespace Lambda

/-! ## Terraform framework values -/

/-- The framework's `types.String`: null, unknown, or a known string. -/
inductive TfString where
  | null
  | unknown
  | value (s : String)
  deriving DecidableEq, Repr

/-- Method `IsNull` of `types.String`. -/
def TfString.IsNull : TfString → Bool
  | .null => true
  | _ => false

/-- Method `ValueString` of `types.String`: the empty string unless known. -/
def TfString.ValueString : TfString → String
  | .value s => s
  | _ => ""

/-- Constructor `types.StringValue`. -/
def StringValue (s : String) : TfString := .value s

/-- The framework's `types.List` with `ElementType: types.StringType`. -/
inductive TfList where
  | null
  | unknown
  | value (elems : List TfString)
  deriving DecidableEq, Repr

/-- Method `IsNull` of `types.List`. -/
def TfList.IsNull : TfList → Bool
  | .null => true
  | _ => false

/-- A Go `[]string`; `nil` is the nil slice, which has length 0 like the empty one. -/
inductive StringSlice where
  | nil
  | mk (elems : List String)
  deriving DecidableEq, Repr

/-- The elements of a slice (none for the nil slice). -/
def StringSlice.elems : StringSlice → List String
  | .nil => []
  | .mk xs => xs

/-- Go `len(s)`. -/
def StringSlice.len (s : StringSlice) : Nat := s.elems.length

/-- Severity of a diagnostic. -/
inductive Severity where
  | error
  | warning
  deriving DecidableEq, Repr

/-- One entry of `diag.Diagnostics`. -/
structure Diagnostic where
  Severity : Severity
  Summary : String
  Detail : String
  deriving DecidableEq, Repr

/-- Method `HasError` of `diag.Diagnostics`. -/
def Diagnostics.HasError (ds : List Diagnostic) : Bool :=
  ds.any (fun d => decide (d.Severity = Severity.error))

/-- Method `Append` of `diag.Diagnostics`: a diagnostic already present is not added again. -/
def Diagnostics.Append (ds : List Diagnostic) (more : List Diagnostic) : List Diagnostic :=
  more.foldl (fun acc d => if d ∈ acc then acc else acc ++ [d]) ds

/-- Method `AddError` of `diag.Diagnostics`. -/
def Diagnostics.AddError (ds : List Diagnostic) (summary detail : String) : List Diagnostic :=
  Diagnostics.Append ds [{ Severity := Severity.error, Summary := summary, Detail := detail }]

/-- A string element read into a Go `string`: null and unknown elements cannot be represented. -/
def TfString.asGoString : TfString → Option String
  | .value s => some s
  | _ => none

/-- Method `ElementsAs(ctx, &target, false)` of `types.List` with a `[]string` target.
Returns the new value of the target and the diagnostics. A null list leaves the nil slice,
an unknown list or a null or unknown element is a conversion error, and the target keeps
its value then. The detail text of the two conversion errors is abridged. -/
def TfList.ElementsAs (l : TfList) (target : StringSlice) : StringSlice × List Diagnostic :=
  match l with
  | .null => (StringSlice.nil, [])
  | .unknown =>
    (target, [{ Severity := Severity.error, Summary := "Value Conversion Error",
                Detail := "Received unknown value, however the target type cannot handle unknown values." }])
  | .value elems =>
    match elems.mapM TfString.asGoString with
    | some xs => (StringSlice.mk xs, [])
    | none =>
      (target, [{ Severity := Severity.error, Summary := "Value Conversion Error",
                  Detail := "Received null or unknown element, however the target type cannot handle it." }])

/-! ## JSON documents and HTTP messages -/

/-- The JSON documents the provider sends. -/
inductive Json where
  | null
  | str (s : String)
  | arr (xs : List Json)
  | obj (fields : List (String × Json))

/-- How `json.Marshal` renders a `[]string`: `null` for the nil slice, an array otherwise. -/
def StringSlice.toJson : StringSlice → Json
  | .nil => Json.null
  | .mk xs => Json.arr (xs.map Json.str)

/-- An `http.Request`, as far as the provider sets it. -/
structure HttpRequest where
  Method : String
  URL : String
  Header : List (String × String)
  Body : Option Json

/-- An `http.Response`, as far as the provider reads it. -/
structure HttpResponse where
  StatusCode : Int
  Body : String

/-- Method `Set` of `http.Header`: the key's previous values are replaced. -/
def Header.Set (h : List (String × String)) (key value : String) : List (String × String) :=
  h.filter (fun kv => decide (kv.1 ≠ key)) ++ [(key, value)]

/-! ## resource_instance.go: data model -/

/-- InstanceModel describes the resource data model. -/
structure InstanceModel where
  Id : TfString
  Name : TfString
  RegionName : TfString
  InstanceTypeName : TfString
  SshKeyNames : TfList
  FileSystemNames : TfList
  Ip : TfString
  PrivateIp : TfString
  Hostname : TfString
  Status : TfString
  deriving DecidableEq, Repr

/-- LaunchRequest represents the request body for launching instances. -/
structure LaunchRequest where
  RegionName : String
  InstanceTypeName : String
  SshKeyNames : StringSlice
  Name : Option String
  FileSystemNames : StringSlice
  deriving DecidableEq, Repr

/-- The inner struct `Data` of `LaunchResponse`. -/
structure LaunchResponseData where
  InstanceIds : StringSlice
  deriving DecidableEq, Repr

/-- LaunchResponse represents the response from the launch API. -/
structure LaunchResponse where
  Data : LaunchResponseData
  deriving DecidableEq, Repr

/-- Instance represents an instance from the read API. -/
structure Instance where
  Id : String
  Name : String
  Ip : String
  PrivateIp : String
  Hostname : String
  Status : String
  deriving DecidableEq, Repr

/-- InstanceResponse represents the response from the read API. -/
structure InstanceResponse where
  Data : Instance
  deriving DecidableEq, Repr

/-- Result of `json.Marshal` on a `LaunchRequest`, following its struct tags: fields in declaration
order, `name` omitted when the pointer is nil, `file_system_names` omitted when the slice
has length 0. -/
def LaunchRequest.Marshal (q : LaunchRequest) : Json :=
  Json.obj
    ([("region_name", Json.str q.RegionName),
      ("instance_type_name", Json.str q.InstanceTypeName),
      ("ssh_key_names", q.SshKeyNames.toJson)]
     ++ (match q.Name with
         | none => []
         | some n => [("name", Json.str n)])
     ++ (if q.FileSystemNames.len = 0 then []
         else [("file_system_names", q.FileSystemNames.toJson)]))

/-- The value of a field of a JSON object; none when the field is absent or the document is
not an object. -/
def Json.field : Json → String → Option Json
  | .obj fields, key => fields.lookup key
  | _, _ => none

/-! ## data_source_instance_types.go: data model -/

/-- InstanceTypeSpecs of the catalog response. -/
structure InstanceTypeSpecs where
  Gpus : Int
  MemoryGib : Int
  StorageGib : Int
  Vcpus : Int
  deriving DecidableEq, Repr

/-- InstanceTypeDetails of the catalog response. -/
structure InstanceTypeDetails where
  Name : String
  Description : String
  GpuDescription : String
  PriceCentsPerHour : Int
  Specs : InstanceTypeSpecs
  deriving DecidableEq, Repr

/-- InstanceTypeAPIResponse of the catalog response. -/
structure InstanceTypeAPIResponse where
  InstanceType : InstanceTypeDetails
  deriving DecidableEq, Repr

/-- InstanceTypesResponse: `Data` is a Go `map[string]InstanceTypeAPIResponse`, here the list
of its key/value pairs in the order the `range` loop visits them. -/
structure InstanceTypesResponse where
  Data : List (String × InstanceTypeAPIResponse)
  deriving DecidableEq, Repr

/-- The framework's `types.Int64` (only known values are built here). -/
inductive TfInt64 where
  | null
  | unknown
  | value (n : Int)
  deriving DecidableEq, Repr

/-- Constructor `types.Int64Value`. -/
def Int64Value (n : Int) : TfInt64 := .value n

/-- InstanceTypeData represents an instance type. -/
structure InstanceTypeData where
  Name : TfString
  Description : TfString
  GpuDescription : TfString
  PriceCentsPerHour : TfInt64
  Gpus : TfInt64
  MemoryGib : TfInt64
  StorageGib : TfInt64
  Vcpus : TfInt64
  deriving DecidableEq, Repr

/-- The framework's `types.Map` of instance-type objects; a known map is the list of its
key/value pairs, one pair per key. -/
inductive TfMap where
  | null
  | unknown
  | value (entries : List (String × InstanceTypeData))
  deriving DecidableEq, Repr

/-- InstanceTypesDataSourceModel describes the data source data model. -/
structure InstanceTypesDataSourceModel where
  Id : TfString
  InstanceTypes : TfMap
  deriving DecidableEq, Repr

/-! ## provider.go -/

/-- Standard-library behaviour the provider relies on but does not define. -/
structure Stdlib where
  /-- Function `url.Parse` as called by `http.NewRequestWithContext`: the error, if any. -/
  urlParse : String → Except String Unit
  /-- Call `json.NewDecoder(body).Decode(&launchResp)`. -/
  decodeLaunchResponse : String → Except String LaunchResponse
  /-- Call `json.NewDecoder(body).Decode(&instanceResp)`. -/
  decodeInstanceResponse : String → Except String InstanceResponse
  /-- Call `json.NewDecoder(body).Decode(&apiResp)`. -/
  decodeInstanceTypesResponse : String → Except String InstanceTypesResponse

/-- ProviderConfig holds the configuration for API requests. `HTTPClient` is the method
`Do` of the configured client: given the requests already sent and the request to send, a
transport error or a response. -/
structure ProviderConfig where
  ApiKey : String
  Endpoint : String
  HTTPClient : List HttpRequest → HttpRequest → Except String HttpResponse

/-- AddAuthHeader adds the Authorization header to HTTP requests. -/
def ProviderConfig.AddAuthHeader (c : ProviderConfig) (req : HttpRequest) : HttpRequest :=
  let h1 := Header.Set req.Header "Authorization" ("Bearer " ++ c.ApiKey)
  let h2 := Header.Set h1 "Accept" "application/json"
  let h3 := Header.Set h2 "Content-Type" "application/json"
  { req with Header := h3 }

/-- Function `http.NewRequestWithContext` for the constant methods `GET` and `POST`: it fails exactly
when the URL does not parse. -/
def NewRequestWithContext (lib : Stdlib) (method url : String) (body : Option Json) :
    Except String HttpRequest :=
  match lib.urlParse url with
  | .error err => .error err
  | .ok _ => .ok { Method := method, URL := url, Header := [], Body := body }

/-! ## resource_instance.go: operations -/

/-- InstanceResource defines the resource implementation (a configured one: `client` is set). -/
structure InstanceResource where
  client : ProviderConfig

/-- The fields `Diagnostics` and `State` shared by `resource.CreateResponse`,
`resource.ReadResponse`, `resource.UpdateResponse` and `resource.DeleteResponse`.
`State = none` is a state with no resource in it. -/
structure ResourceResponse where
  Diagnostics : List Diagnostic
  State : Option InstanceModel
  deriving DecidableEq, Repr

/-- Helper launchInstance: the identifier or the error, and the requests sent.
`json.Marshal` cannot fail on a `LaunchRequest`, so its error branch has no counterpart. -/
def InstanceResource.launchInstance (lib : Stdlib) (r : InstanceResource)
    (sent : List HttpRequest) (launchReq : LaunchRequest) :
    Except String String × List HttpRequest :=
  let jsonData := launchReq.Marshal
  match NewRequestWithContext lib "POST"
      (r.client.Endpoint ++ "/api/v1/instance-operations/launch") (some jsonData) with
  | .error err => (.error err, sent)
  | .ok httpReq =>
    let httpReq := r.client.AddAuthHeader httpReq
    match r.client.HTTPClient sent httpReq with
    | .error err => (.error err, sent ++ [httpReq])
    | .ok httpResp =>
      if httpResp.StatusCode ≠ 200 then
        (.error ("launch API returned status " ++ toString httpResp.StatusCode),
          sent ++ [httpReq])
      else
        match lib.decodeLaunchResponse httpResp.Body with
        | .error err => (.error err, sent ++ [httpReq])
        | .ok launchResp =>
          if launchResp.Data.InstanceIds.len = 0 then
            (.error "no instance IDs returned from launch API", sent ++ [httpReq])
          else
            (.ok (launchResp.Data.InstanceIds.elems.headD ""), sent ++ [httpReq])

/-- Helper readInstance: the model after the call (it is updated through a pointer), the
error if any, and the requests sent. -/
def InstanceResource.readInstance (lib : Stdlib) (r : InstanceResource)
    (sent : List HttpRequest) (data : InstanceModel) :
    InstanceModel × Option String × List HttpRequest :=
  match NewRequestWithContext lib "GET"
      (r.client.Endpoint ++ "/api/v1/instances/" ++ data.Id.ValueString) none with
  | .error err => (data, some err, sent)
  | .ok httpReq =>
    let httpReq := r.client.AddAuthHeader httpReq
    match r.client.HTTPClient sent httpReq with
    | .error err => (data, some err, sent ++ [httpReq])
    | .ok httpResp =>
      if httpResp.StatusCode ≠ 200 then
        (data, some ("read API returned status " ++ toString httpResp.StatusCode),
          sent ++ [httpReq])
      else
        match lib.decodeInstanceResponse httpResp.Body with
        | .error err => (data, some err, sent ++ [httpReq])
        | .ok instanceResp =>
          -- Update computed fields
          let data := { data with Ip := StringValue instanceResp.Data.Ip }
          let data := { data with PrivateIp := StringValue instanceResp.Data.PrivateIp }
          let data := { data with Hostname := StringValue instanceResp.Data.Hostname }
          let data := { data with Status := StringValue instanceResp.Data.Status }
          (data, none, sent ++ [httpReq])

/-- Helper terminateInstance: the error if any, and the requests sent.
`json.Marshal` cannot fail on a `map[string][]string`, so its error branch has no
counterpart. -/
def InstanceResource.terminateInstance (lib : Stdlib) (r : InstanceResource)
    (sent : List HttpRequest) (instanceId : String) : Option String × List HttpRequest :=
  let terminateReq := Json.obj [("instance_ids", Json.arr [Json.str instanceId])]
  match NewRequestWithContext lib "POST"
      (r.client.Endpoint ++ "/api/v1/instance-operations/terminate") (some terminateReq) with
  | .error err => (some err, sent)
  | .ok httpReq =>
    let httpReq := r.client.AddAuthHeader httpReq
    match r.client.HTTPClient sent httpReq with
    | .error err => (some err, sent ++ [httpReq])
    | .ok httpResp =>
      if httpResp.StatusCode ≠ 200 then
        (some ("terminate API returned status " ++ toString httpResp.StatusCode),
          sent ++ [httpReq])
      else
        (none, sent ++ [httpReq])

/-- Lines 208 to 219 of Create: the launch request built from the plan and its two converted
lists. `Name` is set only when the plan's name is not null. -/
def launchRequestOf (data : InstanceModel) (sshKeyNames fileSystemNames : StringSlice) :
    LaunchRequest :=
  let launchReq : LaunchRequest :=
    { RegionName := data.RegionName.ValueString
      InstanceTypeName := data.InstanceTypeName.ValueString
      SshKeyNames := sshKeyNames
      Name := none
      FileSystemNames := fileSystemNames }
  if data.Name.IsNull then launchReq
  else { launchReq with Name := some data.Name.ValueString }

/-- Method Create. `plan` is the model `req.Plan.Get` fills (all its fields are framework
values, so `Get` reports nothing), `resp` the response the framework passes in; the result is
the response after the call and the requests sent. `resp.State.Set` of a model reports
nothing either. -/
def InstanceResource.Create (lib : Stdlib) (r : InstanceResource) (sent : List HttpRequest)
    (plan : InstanceModel) (resp : ResourceResponse) : ResourceResponse × List HttpRequest :=
  let data := plan
  -- Read Terraform plan data into the model
  let resp := { resp with Diagnostics := Diagnostics.Append resp.Diagnostics [] }
  if Diagnostics.HasError resp.Diagnostics then (resp, sent) else
  -- Convert ssh_key_names and file_system_names to Go slices
  let keys := data.SshKeyNames.ElementsAs StringSlice.nil
  let sshKeyNames := keys.1
  let resp := { resp with Diagnostics := Diagnostics.Append resp.Diagnostics keys.2 }
  if Diagnostics.HasError resp.Diagnostics then (resp, sent) else
  let fss := if data.FileSystemNames.IsNull then (StringSlice.nil, [])
             else data.FileSystemNames.ElementsAs StringSlice.nil
  let fileSystemNames := fss.1
  let resp := { resp with Diagnostics := Diagnostics.Append resp.Diagnostics fss.2 }
  if Diagnostics.HasError resp.Diagnostics then (resp, sent) else
  -- Create launch request
  let launchReq := launchRequestOf data sshKeyNames fileSystemNames
  -- Make launch API call
  match r.launchInstance lib sent launchReq with
  | (.error err, sent1) =>
    ({ resp with Diagnostics := (Diagnostics.AddError resp.Diagnostics "Client Error"
          ("Unable to create instance, got error: " ++ err)) }, sent1)
  | (.ok instanceId, sent1) =>
    -- Set the instance ID
    let data := { data with Id := StringValue instanceId }
    -- Read the created instance to get computed values
    match r.readInstance lib sent1 data with
    | (_, some err, sent2) =>
      ({ resp with Diagnostics := (Diagnostics.AddError resp.Diagnostics "Client Error"
            ("Unable to read instance after creation, got error: " ++ err)) }, sent2)
    | (data, none, sent2) =>
      -- Save data into Terraform state
      ({ resp with State := some data
                   Diagnostics := Diagnostics.Append resp.Diagnostics [] }, sent2)

/-- Method Read. `state` is the model `req.State.Get` fills. -/
def InstanceResource.Read (lib : Stdlib) (r : InstanceResource) (sent : List HttpRequest)
    (state : InstanceModel) (resp : ResourceResponse) : ResourceResponse × List HttpRequest :=
  let data := state
  -- Read Terraform prior state data into the model
  let resp := { resp with Diagnostics := Diagnostics.Append resp.Diagnostics [] }
  if Diagnostics.HasError resp.Diagnostics then (resp, sent) else
  -- Read the instance
  match r.readInstance lib sent data with
  | (_, some err, sent1) =>
    ({ resp with Diagnostics := (Diagnostics.AddError resp.Diagnostics "Client Error"
          ("Unable to read instance, got error: " ++ err)) }, sent1)
  | (data, none, sent1) =>
    -- Save updated data into Terraform state
    ({ resp with State := some data
                 Diagnostics := Diagnostics.Append resp.Diagnostics [] }, sent1)

/-- Method Update. `state` and `plan` are the prior state and the plan of the request; the
method reads neither. -/
def InstanceResource.Update (_lib : Stdlib) (_r : InstanceResource) (sent : List HttpRequest)
    (_state _plan : InstanceModel) (resp : ResourceResponse) :
    ResourceResponse × List HttpRequest :=
  -- Lambda instances don't support update operations - all changes require replacement
  ({ resp with Diagnostics := (Diagnostics.AddError resp.Diagnostics "Update not supported"
        "Instance updates are not supported. All changes require resource replacement.") },
    sent)

/-- Method Delete. `state` is the model `req.State.Get` fills. -/
def InstanceResource.Delete (lib : Stdlib) (r : InstanceResource) (sent : List HttpRequest)
    (state : InstanceModel) (resp : ResourceResponse) : ResourceResponse × List HttpRequest :=
  let data := state
  -- Read Terraform prior state data into the model
  let resp := { resp with Diagnostics := Diagnostics.Append resp.Diagnostics [] }
  if Diagnostics.HasError resp.Diagnostics then (resp, sent) else
  -- Terminate the instance
  match r.terminateInstance lib sent data.Id.ValueString with
  | (some err, sent1) =>
    ({ resp with Diagnostics := (Diagnostics.AddError resp.Diagnostics "Client Error"
          ("Unable to delete instance, got error: " ++ err)) }, sent1)
  | (none, sent1) => (resp, sent1)

/-! ## data_source_instance_types.go: operations -/

/-- InstanceTypesDataSource, configured: `client` is set. -/
structure InstanceTypesDataSource where
  client : ProviderConfig

/-- The fields `Diagnostics` and `State` of `datasource.ReadResponse`. -/
structure DataSourceResponse where
  Diagnostics : List Diagnostic
  State : Option InstanceTypesDataSourceModel
  deriving DecidableEq, Repr

/-- Go map assignment `m[key] = v` on a map kept as the list of its pairs. -/
def mapAssign {α : Type} (m : List (String × α)) (key : String) (v : α) : List (String × α) :=
  if m.any (fun kv => decide (kv.1 = key)) then
    m.map (fun kv => if kv.1 = key then (key, v) else kv)
  else m ++ [(key, v)]

/-- The body of the `range` loop of the data source's Read: one catalog entry. -/
def toInstanceTypeData (item : InstanceTypeAPIResponse) : InstanceTypeData :=
  { Name := StringValue item.InstanceType.Name
    Description := StringValue item.InstanceType.Description
    GpuDescription := StringValue item.InstanceType.GpuDescription
    PriceCentsPerHour := Int64Value item.InstanceType.PriceCentsPerHour
    Gpus := Int64Value item.InstanceType.Specs.Gpus
    MemoryGib := Int64Value item.InstanceType.Specs.MemoryGib
    StorageGib := Int64Value item.InstanceType.Specs.StorageGib
    Vcpus := Int64Value item.InstanceType.Specs.Vcpus }

/-- Method Read of the data source. `config` is the model `req.Config.Get` fills;
`types.MapValueFrom` of a map of `InstanceTypeData` reports nothing. -/
def InstanceTypesDataSource.Read (lib : Stdlib) (d : InstanceTypesDataSource)
    (sent : List HttpRequest) (config : InstanceTypesDataSourceModel)
    (resp : DataSourceResponse) : DataSourceResponse × List HttpRequest :=
  let data := config
  -- Read Terraform configuration data into the model
  let resp := { resp with Diagnostics := Diagnostics.Append resp.Diagnostics [] }
  if Diagnostics.HasError resp.Diagnostics then (resp, sent) else
  -- Make API call to get instance types
  match NewRequestWithContext lib "GET" (d.client.Endpoint ++ "/api/v1/instance-types") none with
  | .error err =>
    ({ resp with Diagnostics := (Diagnostics.AddError resp.Diagnostics "Client Error"
          ("Unable to create request, got error: " ++ err)) }, sent)
  | .ok httpReq =>
    let httpReq := d.client.AddAuthHeader httpReq
    match d.client.HTTPClient sent httpReq with
    | .error err =>
      ({ resp with Diagnostics := (Diagnostics.AddError resp.Diagnostics "Client Error"
            ("Unable to read instance types, got error: " ++ err)) }, sent ++ [httpReq])
    | .ok httpResp =>
      if httpResp.StatusCode ≠ 200 then
        ({ resp with Diagnostics := (Diagnostics.AddError resp.Diagnostics "API Error"
              ("Instance types API returned status " ++ toString httpResp.StatusCode)) },
          sent ++ [httpReq])
      else
        match lib.decodeInstanceTypesResponse httpResp.Body with
        | .error err =>
          ({ resp with Diagnostics := (Diagnostics.AddError resp.Diagnostics "Parse Error"
                ("Unable to parse instance types response, got error: " ++ err)) },
            sent ++ [httpReq])
        | .ok apiResp =>
          -- Convert API response to Terraform types
          let instanceTypesMap : List (String × InstanceTypeData) :=
            apiResp.Data.foldl (fun m kv => mapAssign m kv.1 (toInstanceTypeData kv.2)) []
          -- Convert to Terraform Map type
          let instanceTypesMapValue := TfMap.value instanceTypesMap
          let resp := { resp with Diagnostics := Diagnostics.Append resp.Diagnostics [] }
          if Diagnostics.HasError resp.Diagnostics then (resp, sent ++ [httpReq]) else
          -- Set computed values
          let data := { data with Id := StringValue "instance_types" }
          let data := { data with InstanceTypes := instanceTypesMapValue }
          -- Save data into Terraform state
          ({ resp with State := some data
                       Diagnostics := Diagnostics.Append resp.Diagnostics [] }, sent ++ [httpReq])

/-! ## resource_instance.go: schema and planning -/

/-- The plan modifiers the instance schema uses. -/
inductive PlanModifier where
  | UseStateForUnknown
  | RequiresReplace
  deriving DecidableEq, Repr

/-- A `schema.StringAttribute` or `schema.ListAttribute`, as far as planning reads it. -/
structure Attribute where
  Required : Bool
  Optional : Bool
  Computed : Bool
  PlanModifiers : List PlanModifier
  deriving DecidableEq, Repr

/-- Method Schema: the attributes of `resp.Schema`, in the order of the source. -/
def InstanceResource.Schema : List (String × Attribute) :=
  [ ("id", { Required := false, Optional := false, Computed := true,
             PlanModifiers := [PlanModifier.UseStateForUnknown] }),
    ("name", { Required := false, Optional := true, Computed := false,
               PlanModifiers := [] }),
    ("region_name", { Required := true, Optional := false, Computed := false,
                      PlanModifiers := [PlanModifier.RequiresReplace] }),
    ("instance_type_name", { Required := true, Optional := false, Computed := false,
                             PlanModifiers := [PlanModifier.RequiresReplace] }),
    ("ssh_key_names", { Required := true, Optional := false, Computed := false,
                        PlanModifiers := [PlanModifier.RequiresReplace] }),
    ("file_system_names", { Required := false, Optional := true, Computed := false,
                            PlanModifiers := [PlanModifier.RequiresReplace] }),
    ("ip", { Required := false, Optional := false, Computed := true, PlanModifiers := [] }),
    ("private_ip", { Required := false, Optional := false, Computed := true,
                     PlanModifiers := [] }),
    ("hostname", { Required := false, Optional := false, Computed := true,
                   PlanModifiers := [] }),
    ("status", { Required := false, Optional := false, Computed := true,
                 PlanModifiers := [] }) ]

/-- The value of an attribute of the model. -/
inductive AttrValue where
  | string (v : TfString)
  | list (v : TfList)
  deriving DecidableEq, Repr

/-- The attribute of the model that a `tfsdk` tag names. -/
def InstanceModel.attr (m : InstanceModel) (name : String) : Option AttrValue :=
  if name = "id" then some (AttrValue.string m.Id)
  else if name = "name" then some (AttrValue.string m.Name)
  else if name = "region_name" then some (AttrValue.string m.RegionName)
  else if name = "instance_type_name" then some (AttrValue.string m.InstanceTypeName)
  else if name = "ssh_key_names" then some (AttrValue.list m.SshKeyNames)
  else if name = "file_system_names" then some (AttrValue.list m.FileSystemNames)
  else if name = "ip" then some (AttrValue.string m.Ip)
  else if name = "private_ip" then some (AttrValue.string m.PrivateIp)
  else if name = "hostname" then some (AttrValue.string m.Hostname)
  else if name = "status" then some (AttrValue.string m.Status)
  else none

/-- The classification of a planned change of an existing resource. -/
inductive PlanAction where
  | NoOp
  | UpdateInPlace
  | ReplaceRequired
  deriving DecidableEq, Repr

/-- The names of the schema's attributes whose planned value differs from the prior one. -/
def changedAttributes (schema : List (String × Attribute)) (prior proposed : InstanceModel) :
    List (String × Attribute) :=
  schema.filter (fun a => decide (prior.attr a.1 ≠ proposed.attr a.1))

/-- Planning of a change to an existing resource, as the plugin framework does it from a
schema: the `RequiresReplace` modifier of an attribute asks for replacement when the
attribute's planned value differs from its prior value; a change none of whose attributes
asks for replacement is applied through Update; no change is no operation. -/
def classify (schema : List (String × Attribute)) (prior proposed : InstanceModel) :
    PlanAction :=
  let changed := changedAttributes schema prior proposed
  if changed.any (fun a => decide (PlanModifier.RequiresReplace ∈ a.2.PlanModifiers)) then
    PlanAction.ReplaceRequired
  else if changed.isEmpty then PlanAction.NoOp
  else PlanAction.UpdateInPlace

/-! ## What a response tells the caller -/

/-- A text mentions an identifier when the identifier occurs in it. -/
def mentions (text id : String) : Bool := decide (id.toList <:+: text.toList)

/-- A response carries an identifier when the record in its state has it as `id`, or the
summary or detail of one of its diagnostics mentions it. -/
def ResourceResponse.carriesId (resp : ResourceResponse) (id : String) : Bool :=
  (match resp.State with
   | some m => decide (m.Id = TfString.value id)
   | none => false)
  || resp.Diagnostics.any (fun d => mentions d.Summary id || mentions d.Detail id)

/-- The kind of an outcome, which the caller can act on without reading message text:
whether a record is in the state, and the severity and summary of each diagnostic. -/
def ResourceResponse.outcomeKind (resp : ResourceResponse) : Bool × List (Severity × String) :=
  (resp.State.isSome, resp.Diagnostics.map (fun d => (d.Severity, d.Summary)))

/-! ## Example values -/

/-- A stand-in for the standard library in examples: every URL parses, and the three
decoders know a handful of response bodies. -/
def exampleStdlib : Stdlib :=
  { urlParse := fun _ => .ok ()
    decodeLaunchResponse := fun body =>
      if body = "launch: i-123" then .ok { Data := { InstanceIds := StringSlice.mk ["i-123"] } }
      else if body = "launch: i-123, i-456" then
        .ok { Data := { InstanceIds := StringSlice.mk ["i-123", "i-456"] } }
      else if body = "launch: no ids" then .ok { Data := { InstanceIds := StringSlice.mk [] } }
      else if body = "launch: no field" then .ok { Data := { InstanceIds := StringSlice.nil } }
      else .error "invalid character"
    decodeInstanceResponse := fun body =>
      if body = "instance: i-123 active" then
        .ok { Data := { Id := "i-123", Name := "", Ip := "1.2.3.4", PrivateIp := "10.0.0.5",
                        Hostname := "host-1", Status := "active" } }
      else .error "invalid character"
    decodeInstanceTypesResponse := fun _ => .error "invalid character" }

/-- A remote system that answers every request with the given status and body. -/
def constantClient (status : Int) (body : String) :
    List HttpRequest → HttpRequest → Except String HttpResponse :=
  fun _ _ => .ok { StatusCode := status, Body := body }

/-- A remote system that answers POST requests with one response and all others with
another. -/
def scriptedClient (post get : Except String HttpResponse) :
    List HttpRequest → HttpRequest → Except String HttpResponse :=
  fun _ req => if req.Method = "POST" then post else get

/-- The plan of the specification's scenario; the computed attributes are unknown. -/
def examplePlan : InstanceModel :=
  { Id := TfString.unknown
    Name := TfString.null
    RegionName := TfString.value "us-east-1"
    InstanceTypeName := TfString.value "gpu_1x_a10"
    SshKeyNames := TfList.value [TfString.value "k1"]
    FileSystemNames := TfList.null
    Ip := TfString.unknown
    PrivateIp := TfString.unknown
    Hostname := TfString.unknown
    Status := TfString.unknown }

/-- The record of the specification's scenario after a successful create. -/
def exampleRecord : InstanceModel :=
  { examplePlan with
    Id := TfString.value "i-123"
    Ip := TfString.value "1.2.3.4"
    PrivateIp := TfString.value "10.0.0.5"
    Hostname := TfString.value "host-1"
    Status := TfString.value "active" }

/-- A resource configured against the default endpoint with the given remote system. -/
def exampleResource (client : List HttpRequest → HttpRequest → Except String HttpResponse) :
    InstanceResource :=
  { client := { ApiKey := "secret", Endpoint := "https://cloud.lambda.ai", HTTPClient := client } }

/-- The response the framework passes to Create: no diagnostics, no resource in state. -/
def emptyResponse : ResourceResponse := { Diagnostics := [], State := none }

/-- The response the framework passes to Read, Update and Delete: no diagnostics, and the
prior state. -/
def priorResponse (state : InstanceModel) : ResourceResponse :=
  { Diagnostics := [], State := some state }

/-- A data source configured against the default endpoint with the given remote system. -/
def exampleDataSource (client : List HttpRequest → HttpRequest → Except String HttpResponse) :
    InstanceTypesDataSource :=
  { client := { ApiKey := "secret", Endpoint := "https://cloud.lambda.ai", HTTPClient := client } }

/-- The configuration of the data source: both attributes are computed, so both are null. -/
def exampleConfig : InstanceTypesDataSourceModel :=
  { Id := TfString.null, InstanceTypes := TfMap.null }

/-- A catalog with two instance types. -/
def exampleCatalog : InstanceTypesResponse :=
  { Data :=
      [("gpu_1x_a10",
        { InstanceType :=
            { Name := "gpu_1x_a10", Description := "1x A10 (24 GB PCIe)",
              GpuDescription := "A10 (24 GB PCIe)", PriceCentsPerHour := 75,
              Specs := { Gpus := 1, MemoryGib := 200, StorageGib := 1400, Vcpus := 30 } } }),
       ("gpu_8x_h100",
        { InstanceType :=
            { Name := "gpu_8x_h100", Description := "8x H100 (80 GB SXM5)",
              GpuDescription := "H100 (80 GB SXM5)", PriceCentsPerHour := 2392,
              Specs := { Gpus := 8, MemoryGib := 1800, StorageGib := 22528, Vcpus := 208 } } })] }

/-- The example standard library with a catalog decoder that knows one body. -/
def catalogStdlib : Stdlib :=
  { exampleStdlib with
    decodeInstanceTypesResponse := fun body =>
      if body = "catalog: two types" then .ok exampleCatalog
      else .error "invalid character" }

/-- The example plan with an empty name and an empty filesystem list, both set. -/
def emptyNamePlan : InstanceModel :=
  { examplePlan with
    Name := TfString.value ""
    FileSystemNames := TfList.value [] }

/-- The example standard library with an instance decoder that reports, for every body, an
instance whose `id` and `name` are not those of the example record. -/
def mismatchStdlib : Stdlib :=
  { exampleStdlib with
    decodeInstanceResponse := fun _ =>
      .ok { Data := { Id := "i-999", Name := "someone-else", Ip := "5.6.7.8",
                      PrivateIp := "10.0.0.9", Hostname := "host-9", Status := "booting" } } }

/-! ## Auxiliary facts -/

theorem Diagnostics.append_nil (ds : List Diagnostic) : Diagnostics.Append ds [] = ds := rfl

theorem Diagnostics.not_mem_of_no_error (ds : List Diagnostic) (summary detail : String)
    (h : Diagnostics.HasError ds = false) :
    ({ Severity := Severity.error, Summary := summary, Detail := detail } : Diagnostic) ∉ ds := by
  intro hmem
  have : Diagnostics.HasError ds = true := by
    unfold Diagnostics.HasError
    rw [List.any_eq_true]
    exact ⟨_, hmem, by simp⟩
  rw [h] at this
  exact Bool.false_ne_true this

theorem Diagnostics.addError_of_no_error (ds : List Diagnostic) (summary detail : String)
    (h : Diagnostics.HasError ds = false) :
    Diagnostics.AddError ds summary detail
      = ds ++ [{ Severity := Severity.error, Summary := summary, Detail := detail }] := by
  have hn := Diagnostics.not_mem_of_no_error ds summary detail h
  simp [Diagnostics.AddError, Diagnostics.Append, hn]

theorem Diagnostics.mem_addError (ds : List Diagnostic) (summary detail : String) :
    ({ Severity := Severity.error, Summary := summary, Detail := detail } : Diagnostic)
      ∈ Diagnostics.AddError ds summary detail := by
  unfold Diagnostics.AddError Diagnostics.Append
  by_cases hm : ({ Severity := Severity.error, Summary := summary, Detail := detail } : Diagnostic) ∈ ds
  · simp [hm]
  · simp [hm]

theorem TfList.elementsAs_of_isNull (l : TfList) (h : l.IsNull = true) :
    l.ElementsAs StringSlice.nil = (StringSlice.nil, []) := by
  cases l <;> simp [TfList.IsNull] at h ⊢
  rfl

theorem launchInstance_ok (lib : Stdlib) (r : InstanceResource) (sent : List HttpRequest)
    (q : LaunchRequest) (req : HttpRequest) (resp : HttpResponse) (lr : LaunchResponse)
    (id : String) (rest : List String)
    (hreq : NewRequestWithContext lib "POST"
      (r.client.Endpoint ++ "/api/v1/instance-operations/launch") (some q.Marshal) = .ok req)
    (hdo : r.client.HTTPClient sent (r.client.AddAuthHeader req) = .ok resp)
    (hs : resp.StatusCode = 200)
    (hdec : lib.decodeLaunchResponse resp.Body = .ok lr)
    (hids : lr.Data.InstanceIds.elems = id :: rest) :
    r.launchInstance lib sent q = (.ok id, sent ++ [r.client.AddAuthHeader req]) := by
  simp [InstanceResource.launchInstance, hreq, hdo, hs, hdec, StringSlice.len, hids]

theorem launchInstance_empty (lib : Stdlib) (r : InstanceResource) (sent : List HttpRequest)
    (q : LaunchRequest) (req : HttpRequest) (resp : HttpResponse) (lr : LaunchResponse)
    (hreq : NewRequestWithContext lib "POST"
      (r.client.Endpoint ++ "/api/v1/instance-operations/launch") (some q.Marshal) = .ok req)
    (hdo : r.client.HTTPClient sent (r.client.AddAuthHeader req) = .ok resp)
    (hs : resp.StatusCode = 200)
    (hdec : lib.decodeLaunchResponse resp.Body = .ok lr)
    (hids : lr.Data.InstanceIds.len = 0) :
    r.launchInstance lib sent q
      = (.error "no instance IDs returned from launch API",
          sent ++ [r.client.AddAuthHeader req]) := by
  simp [InstanceResource.launchInstance, hreq, hdo, hs, hdec, hids]

theorem launchInstance_status (lib : Stdlib) (r : InstanceResource) (sent : List HttpRequest)
    (q : LaunchRequest) (req : HttpRequest) (resp : HttpResponse)
    (hreq : NewRequestWithContext lib "POST"
      (r.client.Endpoint ++ "/api/v1/instance-operations/launch") (some q.Marshal) = .ok req)
    (hdo : r.client.HTTPClient sent (r.client.AddAuthHeader req) = .ok resp)
    (hs : resp.StatusCode ≠ 200) :
    r.launchInstance lib sent q
      = (.error ("launch API returned status " ++ toString resp.StatusCode),
          sent ++ [r.client.AddAuthHeader req]) := by
  simp [InstanceResource.launchInstance, hreq, hdo, hs]

theorem readInstance_ok (lib : Stdlib) (r : InstanceResource) (sent : List HttpRequest)
    (data : InstanceModel) (req : HttpRequest) (resp : HttpResponse) (ir : InstanceResponse)
    (hreq : NewRequestWithContext lib "GET"
      (r.client.Endpoint ++ "/api/v1/instances/" ++ data.Id.ValueString) none = .ok req)
    (hdo : r.client.HTTPClient sent (r.client.AddAuthHeader req) = .ok resp)
    (hs : resp.StatusCode = 200)
    (hdec : lib.decodeInstanceResponse resp.Body = .ok ir) :
    r.readInstance lib sent data
      = ({ data with Ip := TfString.value ir.Data.Ip
                     PrivateIp := TfString.value ir.Data.PrivateIp
                     Hostname := TfString.value ir.Data.Hostname
                     Status := TfString.value ir.Data.Status },
          none, sent ++ [r.client.AddAuthHeader req]) := by
  simp [InstanceResource.readInstance, hreq, hdo, hs, hdec, StringValue]

theorem readInstance_status (lib : Stdlib) (r : InstanceResource) (sent : List HttpRequest)
    (data : InstanceModel) (req : HttpRequest) (resp : HttpResponse)
    (hreq : NewRequestWithContext lib "GET"
      (r.client.Endpoint ++ "/api/v1/instances/" ++ data.Id.ValueString) none = .ok req)
    (hdo : r.client.HTTPClient sent (r.client.AddAuthHeader req) = .ok resp)
    (hs : resp.StatusCode ≠ 200) :
    r.readInstance lib sent data
      = (data, some ("read API returned status " ++ toString resp.StatusCode),
          sent ++ [r.client.AddAuthHeader req]) := by
  simp [InstanceResource.readInstance, hreq, hdo, hs]

theorem terminateInstance_status (lib : Stdlib) (r : InstanceResource)
    (sent : List HttpRequest) (id : String) (req : HttpRequest) (resp : HttpResponse)
    (hreq : NewRequestWithContext lib "POST"
      (r.client.Endpoint ++ "/api/v1/instance-operations/terminate")
      (some (Json.obj [("instance_ids", Json.arr [Json.str id])])) = .ok req)
    (hdo : r.client.HTTPClient sent (r.client.AddAuthHeader req) = .ok resp)
    (hs : resp.StatusCode ≠ 200) :
    r.terminateInstance lib sent id
      = (some ("terminate API returned status " ++ toString resp.StatusCode),
          sent ++ [r.client.AddAuthHeader req]) := by
  simp [InstanceResource.terminateInstance, hreq, hdo, hs]

/-- What Create does up to the launch call, when the plan's lists convert. -/
theorem create_eq_of_converted (lib : Stdlib) (r : InstanceResource) (sent : List HttpRequest)
    (plan : InstanceModel) (resp : ResourceResponse) (keys fss : StringSlice)
    (hresp : Diagnostics.HasError resp.Diagnostics = false)
    (hkeys : plan.SshKeyNames.ElementsAs StringSlice.nil = (keys, []))
    (hfss : plan.FileSystemNames.ElementsAs StringSlice.nil = (fss, [])) :
    r.Create lib sent plan resp =
      match r.launchInstance lib sent (launchRequestOf plan keys fss) with
      | (.error err, sent1) =>
        ({ resp with Diagnostics := (Diagnostics.AddError resp.Diagnostics "Client Error"
              ("Unable to create instance, got error: " ++ err)) }, sent1)
      | (.ok instanceId, sent1) =>
        match r.readInstance lib sent1 { plan with Id := StringValue instanceId } with
        | (_, some err, sent2) =>
          ({ resp with Diagnostics := (Diagnostics.AddError resp.Diagnostics "Client Error"
                ("Unable to read instance after creation, got error: " ++ err)) }, sent2)
        | (data, none, sent2) => ({ resp with State := some data }, sent2) := by
  have hfs2 : (if plan.FileSystemNames.IsNull = true then (StringSlice.nil, [])
      else plan.FileSystemNames.ElementsAs StringSlice.nil) = (fss, []) := by
    split
    · rename_i hn
      rw [TfList.elementsAs_of_isNull _ hn] at hfss
      exact hfss
    · exact hfss
  simp only [InstanceResource.Create, Diagnostics.append_nil, hresp, hkeys, hfs2]
  rfl

theorem request_of_newRequest (lib : Stdlib) (method url : String) (body : Option Json)
    (req : HttpRequest) (h : NewRequestWithContext lib method url body = .ok req) :
    req = { Method := method, URL := url, Header := [], Body := body } := by
  simp only [NewRequestWithContext] at h
  split at h
  · simp at h
  · simp only [Except.ok.injEq] at h
    exact h.symm

theorem readInstance_transport (lib : Stdlib) (r : InstanceResource) (sent : List HttpRequest)
    (data : InstanceModel) (req : HttpRequest) (err : String)
    (hreq : NewRequestWithContext lib "GET"
      (r.client.Endpoint ++ "/api/v1/instances/" ++ data.Id.ValueString) none = .ok req)
    (hdo : r.client.HTTPClient sent (r.client.AddAuthHeader req) = .error err) :
    r.readInstance lib sent data = (data, some err, sent ++ [r.client.AddAuthHeader req]) := by
  simp [InstanceResource.readInstance, hreq, hdo]

theorem readInstance_undecodable (lib : Stdlib) (r : InstanceResource)
    (sent : List HttpRequest) (data : InstanceModel) (req : HttpRequest) (resp : HttpResponse)
    (err : String)
    (hreq : NewRequestWithContext lib "GET"
      (r.client.Endpoint ++ "/api/v1/instances/" ++ data.Id.ValueString) none = .ok req)
    (hdo : r.client.HTTPClient sent (r.client.AddAuthHeader req) = .ok resp)
    (hs : resp.StatusCode = 200)
    (hdec : lib.decodeInstanceResponse resp.Body = .error err) :
    r.readInstance lib sent data = (data, some err, sent ++ [r.client.AddAuthHeader req]) := by
  simp [InstanceResource.readInstance, hreq, hdo, hs, hdec]

/-- What Read does when the read call answers with a status other than 200. -/
theorem read_of_status (lib : Stdlib) (r : InstanceResource) (sent : List HttpRequest)
    (state : InstanceModel) (resp : ResourceResponse) (req : HttpRequest)
    (resp1 : HttpResponse)
    (hresp : Diagnostics.HasError resp.Diagnostics = false)
    (hreq : NewRequestWithContext lib "GET"
      (r.client.Endpoint ++ "/api/v1/instances/" ++ state.Id.ValueString) none = .ok req)
    (hdo : r.client.HTTPClient sent (r.client.AddAuthHeader req) = .ok resp1)
    (hs : resp1.StatusCode ≠ 200) :
    r.Read lib sent state resp
      = ({ Diagnostics := resp.Diagnostics ++
             [{ Severity := Severity.error, Summary := "Client Error",
                Detail := "Unable to read instance, got error: read API returned status "
                  ++ toString resp1.StatusCode }]
           State := resp.State },
          sent ++ [r.client.AddAuthHeader req]) := by
  have hR := readInstance_status lib r sent state req resp1 hreq hdo hs
  simp only [InstanceResource.Read, Diagnostics.append_nil, hresp, hR,
    Diagnostics.addError_of_no_error _ _ _ hresp]
  simp
  rw [← String.append_assoc]
  rfl

/-! ## Create -/

/-- C1: when the plan's lists convert, the launch call answers HTTP 200 with a decoded
`instance_ids` list whose first element is `id`, and the follow-up read answers HTTP 200 with
a decodable body, Create saves the plan with `id` as its identifier and with the `ip`,
`private_ip`, `hostname` and `status` of the read response; it sends exactly two requests,
the launch and then a GET for `/api/v1/instances/` followed by `id`. The later elements
`rest` of the list play no part. -/
theorem create_persists_first_instance_id (lib : Stdlib) (r : InstanceResource)
    (sent : List HttpRequest) (plan : InstanceModel) (resp : ResourceResponse)
    (keys fss : StringSlice) (req1 req2 : HttpRequest) (resp1 resp2 : HttpResponse)
    (lr : LaunchResponse) (id : String) (rest : List String) (ir : InstanceResponse)
    (hresp : Diagnostics.HasError resp.Diagnostics = false)
    (hkeys : plan.SshKeyNames.ElementsAs StringSlice.nil = (keys, []))
    (hfss : plan.FileSystemNames.ElementsAs StringSlice.nil = (fss, []))
    (hreq1 : NewRequestWithContext lib "POST"
      (r.client.Endpoint ++ "/api/v1/instance-operations/launch")
      (some (launchRequestOf plan keys fss).Marshal) = .ok req1)
    (hdo1 : r.client.HTTPClient sent (r.client.AddAuthHeader req1) = .ok resp1)
    (hs1 : resp1.StatusCode = 200)
    (hdec1 : lib.decodeLaunchResponse resp1.Body = .ok lr)
    (hids : lr.Data.InstanceIds.elems = id :: rest)
    (hreq2 : NewRequestWithContext lib "GET"
      (r.client.Endpoint ++ "/api/v1/instances/" ++ id) none = .ok req2)
    (hdo2 : r.client.HTTPClient (sent ++ [r.client.AddAuthHeader req1])
      (r.client.AddAuthHeader req2) = .ok resp2)
    (hs2 : resp2.StatusCode = 200)
    (hdec2 : lib.decodeInstanceResponse resp2.Body = .ok ir) :
    r.Create lib sent plan resp
      = ({ Diagnostics := resp.Diagnostics
           State := some { plan with Id := TfString.value id
                                     Ip := TfString.value ir.Data.Ip
                                     PrivateIp := TfString.value ir.Data.PrivateIp
                                     Hostname := TfString.value ir.Data.Hostname
                                     Status := TfString.value ir.Data.Status } },
          sent ++ [r.client.AddAuthHeader req1, r.client.AddAuthHeader req2])
    ∧ (r.client.AddAuthHeader req2).Method = "GET"
    ∧ (r.client.AddAuthHeader req2).URL = r.client.Endpoint ++ "/api/v1/instances/" ++ id := by
  have hL := launchInstance_ok lib r sent _ req1 resp1 lr id rest hreq1 hdo1 hs1 hdec1 hids
  have hR := readInstance_ok lib r (sent ++ [r.client.AddAuthHeader req1])
    { plan with Id := StringValue id } req2 resp2 ir hreq2 hdo2 hs2 hdec2
  refine ⟨?_, ?_, ?_⟩
  · rw [create_eq_of_converted lib r sent plan resp keys fss hresp hkeys hfss, hL]
    simp only [hR]
    simp [StringValue]
  · simp only [NewRequestWithContext] at hreq2
    split at hreq2
    · simp at hreq2
    · simp only [Except.ok.injEq] at hreq2
      subst hreq2
      rfl
  · simp only [NewRequestWithContext] at hreq2
    split at hreq2
    · simp at hreq2
    · simp only [Except.ok.injEq] at hreq2
      subst hreq2
      rfl

/-- The scenario of C1: the launch returns the identifiers `i-123` and `i-456`, the read
returns status `active` and ip `1.2.3.4`; the saved record carries `i-123`. -/
theorem create_persists_first_instance_id_witness :
    ((exampleResource (scriptedClient
        (.ok { StatusCode := 200, Body := "launch: i-123, i-456" })
        (.ok { StatusCode := 200, Body := "instance: i-123 active" }))).Create
      exampleStdlib [] examplePlan emptyResponse).1
      = { Diagnostics := [], State := some exampleRecord } :=
  congrArg Prod.fst
    (create_persists_first_instance_id exampleStdlib
      (exampleResource (scriptedClient
        (.ok { StatusCode := 200, Body := "launch: i-123, i-456" })
        (.ok { StatusCode := 200, Body := "instance: i-123 active" })))
      [] examplePlan emptyResponse (StringSlice.mk ["k1"]) StringSlice.nil
      { Method := "POST", URL := "https://cloud.lambda.ai/api/v1/instance-operations/launch",
        Header := [], Body := some (launchRequestOf examplePlan (StringSlice.mk ["k1"])
          StringSlice.nil).Marshal }
      { Method := "GET", URL := "https://cloud.lambda.ai/api/v1/instances/i-123",
        Header := [], Body := none }
      { StatusCode := 200, Body := "launch: i-123, i-456" }
      { StatusCode := 200, Body := "instance: i-123 active" }
      { Data := { InstanceIds := StringSlice.mk ["i-123", "i-456"] } } "i-123" ["i-456"]
      { Data := { Id := "i-123", Name := "", Ip := "1.2.3.4", PrivateIp := "10.0.0.5",
                  Hostname := "host-1", Status := "active" } }
      rfl rfl rfl rfl rfl rfl rfl rfl rfl rfl rfl rfl).1

/-- C2: when the plan's lists convert and the launch call answers HTTP 200 with a decoded
`instance_ids` of length 0 (the empty list, or the nil slice a missing field leaves), Create
adds the error `no instance IDs returned from launch API`, leaves the state as it was passed
in, and has sent the launch request only: no read follows. -/
theorem create_empty_launch_result (lib : Stdlib) (r : InstanceResource)
    (sent : List HttpRequest) (plan : InstanceModel) (resp : ResourceResponse)
    (keys fss : StringSlice) (req1 : HttpRequest) (resp1 : HttpResponse) (lr : LaunchResponse)
    (hresp : Diagnostics.HasError resp.Diagnostics = false)
    (hkeys : plan.SshKeyNames.ElementsAs StringSlice.nil = (keys, []))
    (hfss : plan.FileSystemNames.ElementsAs StringSlice.nil = (fss, []))
    (hreq1 : NewRequestWithContext lib "POST"
      (r.client.Endpoint ++ "/api/v1/instance-operations/launch")
      (some (launchRequestOf plan keys fss).Marshal) = .ok req1)
    (hdo1 : r.client.HTTPClient sent (r.client.AddAuthHeader req1) = .ok resp1)
    (hs1 : resp1.StatusCode = 200)
    (hdec1 : lib.decodeLaunchResponse resp1.Body = .ok lr)
    (hids : lr.Data.InstanceIds.len = 0) :
    r.Create lib sent plan resp
      = ({ Diagnostics := resp.Diagnostics ++
             [{ Severity := Severity.error, Summary := "Client Error",
                Detail := "Unable to create instance, got error: no instance IDs returned from launch API" }]
           State := resp.State },
          sent ++ [r.client.AddAuthHeader req1])
    ∧ Diagnostics.HasError (r.Create lib sent plan resp).1.Diagnostics = true
    ∧ (r.client.AddAuthHeader req1).Method = "POST" := by
  have hL := launchInstance_empty lib r sent _ req1 resp1 lr hreq1 hdo1 hs1 hdec1 hids
  have hC : r.Create lib sent plan resp
      = ({ Diagnostics := resp.Diagnostics ++
             [{ Severity := Severity.error, Summary := "Client Error",
                Detail := "Unable to create instance, got error: no instance IDs returned from launch API" }]
           State := resp.State },
          sent ++ [r.client.AddAuthHeader req1]) := by
    rw [create_eq_of_converted lib r sent plan resp keys fss hresp hkeys hfss, hL]
    simp only [Diagnostics.addError_of_no_error _ _ _ hresp]
    rfl
  refine ⟨hC, ?_, ?_⟩
  · rw [hC]
    simp [Diagnostics.HasError]
  · simp only [NewRequestWithContext] at hreq1
    split at hreq1
    · simp at hreq1
    · simp only [Except.ok.injEq] at hreq1
      subst hreq1
      rfl

/-- The scenario of C2, with a missing `instance_ids` field: Create reports the error, the
state stays empty and the launch is the only request sent. -/
theorem create_empty_launch_result_witness :
    (exampleResource (constantClient 200 "launch: no field")).Create
        exampleStdlib [] examplePlan emptyResponse
      = ({ Diagnostics :=
             [{ Severity := Severity.error, Summary := "Client Error",
                Detail := "Unable to create instance, got error: no instance IDs returned from launch API" }]
           State := none },
          [(exampleResource (constantClient 200 "launch: no field")).client.AddAuthHeader
            { Method := "POST"
              URL := "https://cloud.lambda.ai/api/v1/instance-operations/launch"
              Header := []
              Body := some (launchRequestOf examplePlan (StringSlice.mk ["k1"])
                StringSlice.nil).Marshal }]) :=
  (create_empty_launch_result exampleStdlib
    (exampleResource (constantClient 200 "launch: no field")) [] examplePlan emptyResponse
    (StringSlice.mk ["k1"]) StringSlice.nil
    { Method := "POST", URL := "https://cloud.lambda.ai/api/v1/instance-operations/launch",
      Header := [], Body := some (launchRequestOf examplePlan (StringSlice.mk ["k1"])
        StringSlice.nil).Marshal }
    { StatusCode := 200, Body := "launch: no field" }
    { Data := { InstanceIds := StringSlice.nil } }
    rfl rfl rfl rfl rfl rfl rfl rfl).1

/-- C4, counterexample: the launch succeeds with identifier `i-123` and the follow-up read
answers HTTP 500. The response Create returns has no record in its state and a single
diagnostic, and neither mentions `i-123`. -/
theorem create_read_failure_drops_id :
    ((exampleResource (scriptedClient (.ok { StatusCode := 200, Body := "launch: i-123" })
        (.ok { StatusCode := 500, Body := "" }))).launchInstance exampleStdlib []
        (launchRequestOf examplePlan (StringSlice.mk ["k1"]) StringSlice.nil)).1
      = .ok "i-123"
    ∧ ((exampleResource (scriptedClient (.ok { StatusCode := 200, Body := "launch: i-123" })
        (.ok { StatusCode := 500, Body := "" }))).Create
        exampleStdlib [] examplePlan emptyResponse).1
      = { Diagnostics :=
            [{ Severity := Severity.error, Summary := "Client Error",
               Detail := "Unable to read instance after creation, got error: read API returned status 500" }]
          State := none }
    ∧ ((exampleResource (scriptedClient (.ok { StatusCode := 200, Body := "launch: i-123" })
        (.ok { StatusCode := 500, Body := "" }))).Create
        exampleStdlib [] examplePlan emptyResponse).1.carriesId "i-123" = false := by
  refine ⟨rfl, rfl, ?_⟩
  set_option maxRecDepth 8000 in decide

/-- C4, amended: when the launch succeeds with first identifier `id` and the follow-up read
fails with message `err` (a transport error, a status other than 200, for which `err` is
`read API returned status s`, or an undecodable body), Create leaves the state as it was
passed in and adds one diagnostic, with summary `Client Error` and detail
`Unable to read instance after creation, got error: ` followed by `err`. The identifier is
in the URL of the read request that was sent. Nothing is added to surface it: the response
returned carries `id` exactly when the response passed in carried it already or the summary
or detail of that one diagnostic mentions it. -/
theorem create_read_failure_reports_read_error (lib : Stdlib) (r : InstanceResource)
    (sent : List HttpRequest) (plan : InstanceModel) (resp : ResourceResponse)
    (keys fss : StringSlice) (req1 req2 : HttpRequest) (resp1 : HttpResponse)
    (lr : LaunchResponse) (id : String) (rest : List String) (err : String)
    (hresp : Diagnostics.HasError resp.Diagnostics = false)
    (hkeys : plan.SshKeyNames.ElementsAs StringSlice.nil = (keys, []))
    (hfss : plan.FileSystemNames.ElementsAs StringSlice.nil = (fss, []))
    (hreq1 : NewRequestWithContext lib "POST"
      (r.client.Endpoint ++ "/api/v1/instance-operations/launch")
      (some (launchRequestOf plan keys fss).Marshal) = .ok req1)
    (hdo1 : r.client.HTTPClient sent (r.client.AddAuthHeader req1) = .ok resp1)
    (hs1 : resp1.StatusCode = 200)
    (hdec1 : lib.decodeLaunchResponse resp1.Body = .ok lr)
    (hids : lr.Data.InstanceIds.elems = id :: rest)
    (hreq2 : NewRequestWithContext lib "GET"
      (r.client.Endpoint ++ "/api/v1/instances/" ++ id) none = .ok req2)
    (hfail :
      r.client.HTTPClient (sent ++ [r.client.AddAuthHeader req1])
          (r.client.AddAuthHeader req2) = .error err
      ∨ (∃ resp2, r.client.HTTPClient (sent ++ [r.client.AddAuthHeader req1])
            (r.client.AddAuthHeader req2) = .ok resp2
          ∧ resp2.StatusCode ≠ 200
          ∧ err = "read API returned status " ++ toString resp2.StatusCode)
      ∨ (∃ resp2, r.client.HTTPClient (sent ++ [r.client.AddAuthHeader req1])
            (r.client.AddAuthHeader req2) = .ok resp2
          ∧ resp2.StatusCode = 200
          ∧ lib.decodeInstanceResponse resp2.Body = .error err)) :
    r.Create lib sent plan resp
      = ({ Diagnostics := resp.Diagnostics ++
             [{ Severity := Severity.error, Summary := "Client Error",
                Detail := "Unable to read instance after creation, got error: " ++ err }]
           State := resp.State },
          sent ++ [r.client.AddAuthHeader req1, r.client.AddAuthHeader req2])
    ∧ (r.client.AddAuthHeader req2).URL = r.client.Endpoint ++ "/api/v1/instances/" ++ id
    ∧ (r.Create lib sent plan resp).1.carriesId id
      = (resp.carriesId id
          || (mentions "Client Error" id
              || mentions ("Unable to read instance after creation, got error: " ++ err)
                  id)) := by
  have hL := launchInstance_ok lib r sent _ req1 resp1 lr id rest hreq1 hdo1 hs1 hdec1 hids
  have hR : r.readInstance lib (sent ++ [r.client.AddAuthHeader req1])
      { plan with Id := StringValue id }
      = ({ plan with Id := StringValue id }, some err,
          sent ++ [r.client.AddAuthHeader req1] ++ [r.client.AddAuthHeader req2]) := by
    rcases hfail with h | ⟨resp2, h, hs, he⟩ | ⟨resp2, h, hs, hd⟩
    · exact readInstance_transport lib r _ _ req2 err hreq2 h
    · rw [he]
      exact readInstance_status lib r _ _ req2 resp2 hreq2 h hs
    · exact readInstance_undecodable lib r _ _ req2 resp2 err hreq2 h hs hd
  have hC : r.Create lib sent plan resp
      = ({ Diagnostics := resp.Diagnostics ++
             [{ Severity := Severity.error, Summary := "Client Error",
                Detail := "Unable to read instance after creation, got error: " ++ err }]
           State := resp.State },
          sent ++ [r.client.AddAuthHeader req1, r.client.AddAuthHeader req2]) := by
    rw [create_eq_of_converted lib r sent plan resp keys fss hresp hkeys hfss, hL]
    simp only [hR, Diagnostics.addError_of_no_error _ _ _ hresp]
    simp
  refine ⟨hC, ?_, ?_⟩
  · rw [request_of_newRequest lib _ _ _ req2 hreq2]
    rfl
  · rw [hC]
    simp only [ResourceResponse.carriesId, List.any_append, List.any_cons, List.any_nil,
      Bool.or_false, Bool.or_assoc]

/-- The instance of amended C4 at a read answered with HTTP 500. -/
theorem create_read_failure_reports_read_error_witness :
    ((exampleResource (scriptedClient (.ok { StatusCode := 200, Body := "launch: i-123" })
        (.ok { StatusCode := 500, Body := "" }))).Create
        exampleStdlib [] examplePlan emptyResponse).1
      = { Diagnostics :=
            [{ Severity := Severity.error, Summary := "Client Error",
               Detail := "Unable to read instance after creation, got error: read API returned status 500" }]
          State := none } :=
  congrArg Prod.fst
    (create_read_failure_reports_read_error exampleStdlib
      (exampleResource (scriptedClient (.ok { StatusCode := 200, Body := "launch: i-123" })
        (.ok { StatusCode := 500, Body := "" })))
      [] examplePlan emptyResponse (StringSlice.mk ["k1"]) StringSlice.nil
      { Method := "POST", URL := "https://cloud.lambda.ai/api/v1/instance-operations/launch",
        Header := [], Body := some (launchRequestOf examplePlan (StringSlice.mk ["k1"])
          StringSlice.nil).Marshal }
      { Method := "GET", URL := "https://cloud.lambda.ai/api/v1/instances/i-123",
        Header := [], Body := none }
      { StatusCode := 200, Body := "launch: i-123" }
      { Data := { InstanceIds := StringSlice.mk ["i-123"] } } "i-123" []
      "read API returned status 500"
      rfl rfl rfl rfl rfl rfl rfl rfl rfl
      (Or.inr (Or.inl ⟨{ StatusCode := 500, Body := "" }, rfl, by decide, rfl⟩))).1

/-! ## Status codes -/

/-- C3: a response whose status is not 200 makes each of the four operations fail with an
error that names the status: `launchInstance`, `readInstance` and `terminateInstance` return
the error `... API returned status s`, and the data source's Read adds the diagnostic
`Instance types API returned status s` and saves nothing. The results hold for every body
and every decoder: neither occurs in them. -/
theorem non200_status_is_error (lib : Stdlib) (cfg : ProviderConfig)
    (sent : List HttpRequest) (resp : HttpResponse) (hs : resp.StatusCode ≠ 200) :
    (∀ (q : LaunchRequest) (req : HttpRequest),
      NewRequestWithContext lib "POST"
        (cfg.Endpoint ++ "/api/v1/instance-operations/launch") (some q.Marshal) = .ok req →
      cfg.HTTPClient sent (cfg.AddAuthHeader req) = .ok resp →
      InstanceResource.launchInstance lib { client := cfg } sent q
        = (.error ("launch API returned status " ++ toString resp.StatusCode),
            sent ++ [cfg.AddAuthHeader req]))
    ∧ (∀ (data : InstanceModel) (req : HttpRequest),
      NewRequestWithContext lib "GET"
        (cfg.Endpoint ++ "/api/v1/instances/" ++ data.Id.ValueString) none = .ok req →
      cfg.HTTPClient sent (cfg.AddAuthHeader req) = .ok resp →
      InstanceResource.readInstance lib { client := cfg } sent data
        = (data, some ("read API returned status " ++ toString resp.StatusCode),
            sent ++ [cfg.AddAuthHeader req]))
    ∧ (∀ (id : String) (req : HttpRequest),
      NewRequestWithContext lib "POST"
        (cfg.Endpoint ++ "/api/v1/instance-operations/terminate")
        (some (Json.obj [("instance_ids", Json.arr [Json.str id])])) = .ok req →
      cfg.HTTPClient sent (cfg.AddAuthHeader req) = .ok resp →
      InstanceResource.terminateInstance lib { client := cfg } sent id
        = (some ("terminate API returned status " ++ toString resp.StatusCode),
            sent ++ [cfg.AddAuthHeader req]))
    ∧ (∀ (config : InstanceTypesDataSourceModel) (dresp : DataSourceResponse)
        (req : HttpRequest),
      Diagnostics.HasError dresp.Diagnostics = false →
      NewRequestWithContext lib "GET" (cfg.Endpoint ++ "/api/v1/instance-types") none
        = .ok req →
      cfg.HTTPClient sent (cfg.AddAuthHeader req) = .ok resp →
      InstanceTypesDataSource.Read lib { client := cfg } sent config dresp
        = ({ Diagnostics := dresp.Diagnostics ++
               [{ Severity := Severity.error, Summary := "API Error",
                  Detail := "Instance types API returned status " ++ toString resp.StatusCode }]
             State := dresp.State },
            sent ++ [cfg.AddAuthHeader req])) := by
  refine ⟨?_, ?_, ?_, ?_⟩
  · intro q req hreq hdo
    exact launchInstance_status lib { client := cfg } sent q req resp hreq hdo hs
  · intro data req hreq hdo
    exact readInstance_status lib { client := cfg } sent data req resp hreq hdo hs
  · intro id req hreq hdo
    exact terminateInstance_status lib { client := cfg } sent id req resp hreq hdo hs
  · intro config dresp req hd hreq hdo
    simp only [InstanceTypesDataSource.Read, Diagnostics.append_nil, hd, hreq, hdo,
      Diagnostics.addError_of_no_error _ _ _ hd]
    simp [hs]

/-- The instance of C3 at status 201 with a body the launch decoder would accept: all four
operations fail with an error naming 201. -/
theorem non200_status_is_error_witness :
    (exampleResource (constantClient 201 "launch: i-123")).launchInstance exampleStdlib []
        (launchRequestOf examplePlan (StringSlice.mk ["k1"]) StringSlice.nil)
      = (.error "launch API returned status 201",
          [(exampleResource (constantClient 201 "launch: i-123")).client.AddAuthHeader
            { Method := "POST"
              URL := "https://cloud.lambda.ai/api/v1/instance-operations/launch"
              Header := []
              Body := some (launchRequestOf examplePlan (StringSlice.mk ["k1"])
                StringSlice.nil).Marshal }])
    ∧ ((exampleResource (constantClient 201 "launch: i-123")).readInstance exampleStdlib []
        exampleRecord).2.1 = some "read API returned status 201"
    ∧ ((exampleResource (constantClient 201 "launch: i-123")).terminateInstance exampleStdlib []
        "i-123").1 = some "terminate API returned status 201"
    ∧ ((exampleDataSource (constantClient 201 "launch: i-123")).Read exampleStdlib []
        exampleConfig { Diagnostics := [], State := none }).1
      = { Diagnostics := [{ Severity := Severity.error, Summary := "API Error",
                            Detail := "Instance types API returned status 201" }]
          State := none } :=
  have h := non200_status_is_error exampleStdlib
    (exampleResource (constantClient 201 "launch: i-123")).client []
    { StatusCode := 201, Body := "launch: i-123" } (by decide)
  ⟨h.1 _ _ rfl rfl,
   congrArg (fun x => x.2.1) (h.2.1 exampleRecord _ rfl rfl),
   congrArg Prod.fst (h.2.2.1 "i-123" _ rfl rfl),
   congrArg Prod.fst (h.2.2.2 exampleConfig { Diagnostics := [], State := none } _ rfl rfl rfl)⟩

/-! ## Read -/

/-- C5, counterexample: for the record `i-123`, a read answered with HTTP 404 and a read
answered with HTTP 500 give outcomes of the same kind, one error diagnostic with summary
`Client Error` and the record still in the state; after the 404 the state holds the prior
record unchanged. -/
theorem read_not_found_is_not_a_kind :
    ((exampleResource (constantClient 404 "")).Read exampleStdlib [] exampleRecord
        (priorResponse exampleRecord)).1.outcomeKind
      = ((exampleResource (constantClient 500 "")).Read exampleStdlib [] exampleRecord
        (priorResponse exampleRecord)).1.outcomeKind
    ∧ ((exampleResource (constantClient 404 "")).Read exampleStdlib [] exampleRecord
        (priorResponse exampleRecord)).1
      = { Diagnostics :=
            [{ Severity := Severity.error, Summary := "Client Error",
               Detail := "Unable to read instance, got error: read API returned status 404" }]
          State := some exampleRecord } :=
  ⟨rfl, rfl⟩

/-- C5, amended: when the read endpoint answers HTTP 404, Read fails the way it does for
every other status that is not 200: it adds one `Client Error` diagnostic whose detail ends
in `read API returned status 404`, and leaves the state, with the record in it, as it was
passed in. The kind of the outcome does not depend on the status. -/
theorem read_not_found_is_status_error (lib : Stdlib) (r : InstanceResource)
    (sent : List HttpRequest) (state : InstanceModel) (resp : ResourceResponse)
    (req : HttpRequest) (resp1 : HttpResponse)
    (hresp : Diagnostics.HasError resp.Diagnostics = false)
    (hreq : NewRequestWithContext lib "GET"
      (r.client.Endpoint ++ "/api/v1/instances/" ++ state.Id.ValueString) none = .ok req)
    (hdo : r.client.HTTPClient sent (r.client.AddAuthHeader req) = .ok resp1)
    (hs : resp1.StatusCode = 404) :
    r.Read lib sent state resp
      = ({ Diagnostics := resp.Diagnostics ++
             [{ Severity := Severity.error, Summary := "Client Error",
                Detail := "Unable to read instance, got error: read API returned status 404" }]
           State := resp.State },
          sent ++ [r.client.AddAuthHeader req])
    ∧ (r.Read lib sent state resp).1.outcomeKind
      = (resp.State.isSome,
          resp.Diagnostics.map (fun d => (d.Severity, d.Summary))
            ++ [(Severity.error, "Client Error")]) := by
  have hne : resp1.StatusCode ≠ 200 := by rw [hs]; decide
  have h := read_of_status lib r sent state resp req resp1 hresp hreq hdo hne
  rw [hs] at h
  have h404 : "Unable to read instance, got error: read API returned status "
      ++ toString (404 : Int)
      = "Unable to read instance, got error: read API returned status 404" := by rfl
  rw [h404] at h
  refine ⟨h, ?_⟩
  rw [h]
  simp [ResourceResponse.outcomeKind]

/-- The instance of amended C5 at the record `i-123`. -/
theorem read_not_found_is_status_error_witness :
    ((exampleResource (constantClient 404 "")).Read exampleStdlib [] exampleRecord
        (priorResponse exampleRecord)).1.State = some exampleRecord :=
  congrArg (fun x => x.1.State)
    (read_not_found_is_status_error exampleStdlib (exampleResource (constantClient 404 ""))
      [] exampleRecord (priorResponse exampleRecord)
      { Method := "GET", URL := "https://cloud.lambda.ai/api/v1/instances/i-123",
        Header := [], Body := none }
      { StatusCode := 404, Body := "" } rfl rfl rfl rfl).1

/-- C6: when the read call answers HTTP 500, Read adds the error
`Unable to read instance, got error: read API returned status 500` and leaves the state as
it was passed in; the framework passes in the prior state, so the record in it is the prior
record, every field unchanged, and it is not removed. -/
theorem read_server_error_keeps_record (lib : Stdlib) (r : InstanceResource)
    (sent : List HttpRequest) (state : InstanceModel) (diags : List Diagnostic)
    (req : HttpRequest) (resp1 : HttpResponse)
    (hresp : Diagnostics.HasError diags = false)
    (hreq : NewRequestWithContext lib "GET"
      (r.client.Endpoint ++ "/api/v1/instances/" ++ state.Id.ValueString) none = .ok req)
    (hdo : r.client.HTTPClient sent (r.client.AddAuthHeader req) = .ok resp1)
    (hs : resp1.StatusCode = 500) :
    r.Read lib sent state { Diagnostics := diags, State := some state }
      = ({ Diagnostics := diags ++
             [{ Severity := Severity.error, Summary := "Client Error",
                Detail := "Unable to read instance, got error: read API returned status 500" }]
           State := some state },
          sent ++ [r.client.AddAuthHeader req])
    ∧ Diagnostics.HasError
        (r.Read lib sent state { Diagnostics := diags, State := some state }).1.Diagnostics
      = true := by
  have hne : resp1.StatusCode ≠ 200 := by rw [hs]; decide
  have h := read_of_status lib r sent state { Diagnostics := diags, State := some state }
    req resp1 hresp hreq hdo hne
  rw [hs] at h
  have h500 : "Unable to read instance, got error: read API returned status "
      ++ toString (500 : Int)
      = "Unable to read instance, got error: read API returned status 500" := by rfl
  rw [h500] at h
  refine ⟨h, ?_⟩
  rw [h]
  simp [Diagnostics.HasError]

/-- The scenario of C6 at the record `i-123`. -/
theorem read_server_error_keeps_record_witness :
    ((exampleResource (constantClient 500 "")).Read exampleStdlib [] exampleRecord
        (priorResponse exampleRecord)).1
      = { Diagnostics :=
            [{ Severity := Severity.error, Summary := "Client Error",
               Detail := "Unable to read instance, got error: read API returned status 500" }]
          State := some exampleRecord } :=
  congrArg Prod.fst
    (read_server_error_keeps_record exampleStdlib (exampleResource (constantClient 500 ""))
      [] exampleRecord []
      { Method := "GET", URL := "https://cloud.lambda.ai/api/v1/instances/i-123",
        Header := [], Body := none }
      { StatusCode := 500, Body := "" } rfl rfl rfl rfl).1

/-! ## Update -/

/-- C7: Update sends no request, leaves the state as it was passed in, and its diagnostics
afterwards contain the error `Update not supported`, whatever the prior state, the plan and
the response passed in. -/
theorem update_is_unsupported (lib : Stdlib) (r : InstanceResource) (sent : List HttpRequest)
    (state plan : InstanceModel) (resp : ResourceResponse) :
    (r.Update lib sent state plan resp).2 = sent
    ∧ (r.Update lib sent state plan resp).1.State = resp.State
    ∧ ({ Severity := Severity.error, Summary := "Update not supported",
         Detail := "Instance updates are not supported. All changes require resource replacement." }
        : Diagnostic) ∈ (r.Update lib sent state plan resp).1.Diagnostics
    ∧ Diagnostics.HasError (r.Update lib sent state plan resp).1.Diagnostics = true := by
  have hmem := Diagnostics.mem_addError resp.Diagnostics "Update not supported"
    "Instance updates are not supported. All changes require resource replacement."
  refine ⟨rfl, rfl, hmem, ?_⟩
  unfold Diagnostics.HasError
  rw [List.any_eq_true]
  exact ⟨_, hmem, by simp⟩

/-! ## Delete -/

/-- C8: for a record with identifier `id`, once the terminate request is built Delete sends
exactly that one request, a POST to `/api/v1/instance-operations/terminate` whose body is
the object with `instance_ids` the one-element array of `id`; it ends without an error
exactly when that call answers HTTP 200, and then the response is the one passed in. No
other request, so no read, is sent. -/
theorem delete_sends_one_terminate_call (lib : Stdlib) (r : InstanceResource)
    (sent : List HttpRequest) (state : InstanceModel) (resp : ResourceResponse) (id : String)
    (req : HttpRequest)
    (hresp : Diagnostics.HasError resp.Diagnostics = false)
    (hid : state.Id = TfString.value id)
    (hreq : NewRequestWithContext lib "POST"
      (r.client.Endpoint ++ "/api/v1/instance-operations/terminate")
      (some (Json.obj [("instance_ids", Json.arr [Json.str id])])) = .ok req) :
    (r.Delete lib sent state resp).2 = sent ++ [r.client.AddAuthHeader req]
    ∧ (r.client.AddAuthHeader req).Method = "POST"
    ∧ (r.client.AddAuthHeader req).URL
        = r.client.Endpoint ++ "/api/v1/instance-operations/terminate"
    ∧ (r.client.AddAuthHeader req).Body
        = some (Json.obj [("instance_ids", Json.arr [Json.str id])])
    ∧ (Diagnostics.HasError (r.Delete lib sent state resp).1.Diagnostics = false
        ↔ ∃ resp1, r.client.HTTPClient sent (r.client.AddAuthHeader req) = .ok resp1
            ∧ resp1.StatusCode = 200)
    ∧ (Diagnostics.HasError (r.Delete lib sent state resp).1.Diagnostics = false
        → (r.Delete lib sent state resp).1 = resp) := by
  have hv : state.Id.ValueString = id := by rw [hid]; rfl
  have hq := request_of_newRequest lib _ _ _ req hreq
  have herr : ∀ (detail : String),
      Diagnostics.HasError (Diagnostics.AddError resp.Diagnostics "Client Error" detail)
        = true := by
    intro detail
    unfold Diagnostics.HasError
    rw [List.any_eq_true]
    exact ⟨_, Diagnostics.mem_addError _ _ _, by simp⟩
  refine ⟨?_, ?_, ?_, ?_, ?_, ?_⟩
  · simp only [InstanceResource.Delete, Diagnostics.append_nil, hresp, hv,
      InstanceResource.terminateInstance, hreq]
    cases hdo : r.client.HTTPClient sent (r.client.AddAuthHeader req) with
    | error e => simp
    | ok resp1 =>
      by_cases hs : resp1.StatusCode = 200
      · simp [hs]
      · simp [hs]
  · rw [hq]; rfl
  · rw [hq]; rfl
  · rw [hq]; rfl
  · simp only [InstanceResource.Delete, Diagnostics.append_nil, hresp, hv,
      InstanceResource.terminateInstance, hreq]
    cases hdo : r.client.HTTPClient sent (r.client.AddAuthHeader req) with
    | error e => simp [herr]
    | ok resp1 =>
      by_cases hs : resp1.StatusCode = 200
      · simp [hs, hresp]
      · simp [hs, herr]
  · simp only [InstanceResource.Delete, Diagnostics.append_nil, hresp, hv,
      InstanceResource.terminateInstance, hreq]
    cases hdo : r.client.HTTPClient sent (r.client.AddAuthHeader req) with
    | error e => simp [herr]
    | ok resp1 =>
      by_cases hs : resp1.StatusCode = 200
      · simp [hs]
      · simp [hs, herr]

/-- The instance of C8 at the record `i-123` with the terminate call answered HTTP 200:
one request is sent and the response is returned as passed in. -/
theorem delete_sends_one_terminate_call_witness :
    ((exampleResource (constantClient 200 "")).Delete exampleStdlib [] exampleRecord
        (priorResponse exampleRecord)).2
      = [(exampleResource (constantClient 200 "")).client.AddAuthHeader
          { Method := "POST"
            URL := "https://cloud.lambda.ai/api/v1/instance-operations/terminate"
            Header := []
            Body := some (Json.obj [("instance_ids", Json.arr [Json.str "i-123"])]) }] :=
  (delete_sends_one_terminate_call exampleStdlib (exampleResource (constantClient 200 ""))
    [] exampleRecord (priorResponse exampleRecord) "i-123"
    { Method := "POST", URL := "https://cloud.lambda.ai/api/v1/instance-operations/terminate",
      Header := [], Body := some (Json.obj [("instance_ids", Json.arr [Json.str "i-123"])]) }
    rfl rfl rfl).1

/-! ## Planning -/

/-- C9: when the prior and the proposed model differ in `region_name`, `instance_type_name`,
`ssh_key_names` or `file_system_names`, planning against the instance schema asks for
replacement, and each of these four attributes of the schema carries `RequiresReplace`. -/
theorem immutable_attribute_change_requires_replace (prior proposed : InstanceModel)
    (h : prior.RegionName ≠ proposed.RegionName
      ∨ prior.InstanceTypeName ≠ proposed.InstanceTypeName
      ∨ prior.SshKeyNames ≠ proposed.SshKeyNames
      ∨ prior.FileSystemNames ≠ proposed.FileSystemNames) :
    classify InstanceResource.Schema prior proposed = PlanAction.ReplaceRequired
    ∧ ∀ name ∈ ["region_name", "instance_type_name", "ssh_key_names", "file_system_names"],
        ∃ a, InstanceResource.Schema.lookup name = some a
          ∧ PlanModifier.RequiresReplace ∈ a.PlanModifiers := by
  constructor
  · have hany : (changedAttributes InstanceResource.Schema prior proposed).any
        (fun a => decide (PlanModifier.RequiresReplace ∈ a.2.PlanModifiers)) = true := by
      rw [List.any_eq_true]
      rcases h with h | h | h | h
      · refine ⟨("region_name", ⟨true, false, false, [PlanModifier.RequiresReplace]⟩), ?_, by simp⟩
        simp only [changedAttributes, List.mem_filter]
        refine ⟨by simp [InstanceResource.Schema], ?_⟩
        simpa [InstanceModel.attr] using h
      · refine ⟨("instance_type_name", ⟨true, false, false, [PlanModifier.RequiresReplace]⟩), ?_, by simp⟩
        simp only [changedAttributes, List.mem_filter]
        refine ⟨by simp [InstanceResource.Schema], ?_⟩
        simpa [InstanceModel.attr] using h
      · refine ⟨("ssh_key_names", ⟨true, false, false, [PlanModifier.RequiresReplace]⟩), ?_, by simp⟩
        simp only [changedAttributes, List.mem_filter]
        refine ⟨by simp [InstanceResource.Schema], ?_⟩
        simpa [InstanceModel.attr] using h
      · refine ⟨("file_system_names", ⟨false, true, false, [PlanModifier.RequiresReplace]⟩), ?_, by simp⟩
        simp only [changedAttributes, List.mem_filter]
        refine ⟨by simp [InstanceResource.Schema], ?_⟩
        simpa [InstanceModel.attr] using h
    simp only [classify, hany, if_true]
  · intro name hname
    simp only [List.mem_cons, List.mem_singleton, List.not_mem_nil, or_false] at hname
    rcases hname with rfl | rfl | rfl | rfl
    · exact ⟨⟨true, false, false, [PlanModifier.RequiresReplace]⟩, by decide, by simp⟩
    · exact ⟨⟨true, false, false, [PlanModifier.RequiresReplace]⟩, by decide, by simp⟩
    · exact ⟨⟨true, false, false, [PlanModifier.RequiresReplace]⟩, by decide, by simp⟩
    · exact ⟨⟨false, true, false, [PlanModifier.RequiresReplace]⟩, by decide, by simp⟩

/-- The scenario of C9: the SSH keys of the record `i-123` change from `k1` to `k1`, `k2`. -/
theorem immutable_attribute_change_requires_replace_witness :
    classify InstanceResource.Schema exampleRecord
        { exampleRecord with
          SshKeyNames := TfList.value [TfString.value "k1", TfString.value "k2"] }
      = PlanAction.ReplaceRequired :=
  (immutable_attribute_change_requires_replace exampleRecord
    { exampleRecord with
      SshKeyNames := TfList.value [TfString.value "k1", TfString.value "k2"] }
    (Or.inr (Or.inr (Or.inl (by decide))))).1

/-- A change of `name` alone is planned as an update in place: `name` is the one configurable
attribute of the schema without `RequiresReplace`. -/
theorem classify_of_name_change (prior : InstanceModel) (name : TfString)
    (h : prior.Name ≠ name) :
    classify InstanceResource.Schema prior { prior with Name := name }
      = PlanAction.UpdateInPlace := by
  have hne : ¬ (name = prior.Name) := fun e => h e.symm
  simp [classify, changedAttributes, InstanceResource.Schema, InstanceModel.attr,
    List.filter, h, hne]

/-- C10, the code at a name-only change: the record `i-123` renamed to `gpu-box` is planned
as an update in place, not as a replacement, because the schema's `name` attribute has no
plan modifier; the Update it is sent to then fails with `Update not supported`. -/
theorem rename_is_planned_as_update :
    classify InstanceResource.Schema exampleRecord
        { exampleRecord with Name := TfString.value "gpu-box" }
      = PlanAction.UpdateInPlace
    ∧ InstanceResource.Schema.lookup "name"
      = some { Required := false, Optional := true, Computed := false, PlanModifiers := [] }
    ∧ ((exampleResource (constantClient 200 "")).Update exampleStdlib [] exampleRecord
        { exampleRecord with Name := TfString.value "gpu-box" }
        (priorResponse exampleRecord)).1
      = { Diagnostics :=
            [{ Severity := Severity.error, Summary := "Update not supported",
               Detail := "Instance updates are not supported. All changes require resource replacement." }]
          State := some exampleRecord } := by
  refine ⟨by decide, by decide, rfl⟩

/-! ## Catalog listing -/

/-- Assigning a key that the map does not hold yet adds one pair at the end. -/
theorem mapAssign_of_fresh {α : Type} (m : List (String × α)) (key : String) (v : α)
    (h : key ∉ m.map Prod.fst) : mapAssign m key v = m ++ [(key, v)] := by
  have hany : m.any (fun kv => decide (kv.1 = key)) = false := by
    rw [List.any_eq_false]
    intro kv hkv
    have hne : kv.1 ≠ key := fun e => h (e ▸ List.mem_map_of_mem Prod.fst hkv)
    simp [hne]
  simp [mapAssign, hany]

/-- The `range` loop over a map with distinct keys, started on a map that shares no key
with it, adds one converted pair per key, in the order of the visit. -/
theorem foldl_mapAssign_of_nodup {α β : Type} (f : α → β) (l : List (String × α))
    (acc : List (String × β))
    (hl : (l.map Prod.fst).Nodup)
    (hdisj : ∀ key ∈ l.map Prod.fst, key ∉ acc.map Prod.fst) :
    l.foldl (fun m kv => mapAssign m kv.1 (f kv.2)) acc
      = acc ++ l.map (fun kv => (kv.1, f kv.2)) := by
  induction l generalizing acc with
  | nil => simp
  | cons kv rest ih =>
    have hfresh : kv.1 ∉ acc.map Prod.fst := hdisj kv.1 (by simp)
    have hnd : (rest.map Prod.fst).Nodup := (List.nodup_cons.mp (by simpa using hl)).2
    have hnotin : kv.1 ∉ rest.map Prod.fst := (List.nodup_cons.mp (by simpa using hl)).1
    rw [List.foldl_cons, mapAssign_of_fresh acc kv.1 (f kv.2) hfresh]
    rw [ih (acc ++ [(kv.1, f kv.2)]) hnd]
    · simp
    · intro key hkey hmem
      rw [List.map_append, List.mem_append] at hmem
      rcases hmem with hmem | hmem
      · exact hdisj key (by simp [List.mem_map] at hkey ⊢; right; exact hkey) hmem
      · simp only [List.map_cons, List.map_nil, List.mem_singleton] at hmem
        exact hnotin (hmem ▸ hkey)

/-- C11: when the catalog call answers HTTP 200 with a decodable body whose `data` map has
distinct keys (as every Go map has), the data source's Read saves the identifier
`instance_types` and a map with one entry per pair of `data`: the keys are those of `data`,
none added, dropped or renamed, so the number of entries is the same; and the entry of a key
holds the `name`, `description`, `gpu_description` and `price_cents_per_hour` of its
`instance_type` and the `gpus`, `memory_gib`, `storage_gib` and `vcpus` of its `specs`, as
known values with the same strings and integers. -/
theorem listing_mirrors_catalog (lib : Stdlib) (d : InstanceTypesDataSource)
    (sent : List HttpRequest) (config : InstanceTypesDataSourceModel)
    (resp : DataSourceResponse) (req : HttpRequest) (resp1 : HttpResponse)
    (apiResp : InstanceTypesResponse)
    (hresp : Diagnostics.HasError resp.Diagnostics = false)
    (hreq : NewRequestWithContext lib "GET" (d.client.Endpoint ++ "/api/v1/instance-types")
      none = .ok req)
    (hdo : d.client.HTTPClient sent (d.client.AddAuthHeader req) = .ok resp1)
    (hs : resp1.StatusCode = 200)
    (hdec : lib.decodeInstanceTypesResponse resp1.Body = .ok apiResp)
    (hkeys : (apiResp.Data.map Prod.fst).Nodup) :
    ∃ entries : List (String × InstanceTypeData),
      d.Read lib sent config resp
        = ({ Diagnostics := resp.Diagnostics
             State := some { Id := TfString.value "instance_types"
                             InstanceTypes := TfMap.value entries } },
            sent ++ [d.client.AddAuthHeader req])
      ∧ entries.map Prod.fst = apiResp.Data.map Prod.fst
      ∧ entries.length = apiResp.Data.length
      ∧ (∀ key entry, (key, entry) ∈ entries ↔
          ∃ item, (key, item) ∈ apiResp.Data
            ∧ entry = { Name := TfString.value item.InstanceType.Name
                        Description := TfString.value item.InstanceType.Description
                        GpuDescription := TfString.value item.InstanceType.GpuDescription
                        PriceCentsPerHour := TfInt64.value item.InstanceType.PriceCentsPerHour
                        Gpus := TfInt64.value item.InstanceType.Specs.Gpus
                        MemoryGib := TfInt64.value item.InstanceType.Specs.MemoryGib
                        StorageGib := TfInt64.value item.InstanceType.Specs.StorageGib
                        Vcpus := TfInt64.value item.InstanceType.Specs.Vcpus }) := by
  refine ⟨apiResp.Data.map (fun kv => (kv.1, toInstanceTypeData kv.2)), ?_, ?_, ?_, ?_⟩
  · have hloop := foldl_mapAssign_of_nodup toInstanceTypeData apiResp.Data [] hkeys
      (by intro key _ hmem; simp at hmem)
    simp only [InstanceTypesDataSource.Read, Diagnostics.append_nil, hresp, hreq, hdo, hs,
      hdec, hloop]
    simp [StringValue]
  · simp [List.map_map, Function.comp_def]
  · simp
  · intro key entry
    simp only [List.mem_map, Prod.mk.injEq]
    constructor
    · rintro ⟨kv, hkv, hk, he⟩
      refine ⟨kv.2, ?_, ?_⟩
      · rw [← hk]
        exact hkv
      · rw [← he]
        rfl
    · rintro ⟨item, hitem, he⟩
      refine ⟨(key, item), hitem, rfl, ?_⟩
      rw [he]
      rfl

/-- The scenario of C11: a catalog with two keys gives a map with exactly those two
entries, the price in cents unchanged. -/
theorem listing_mirrors_catalog_witness :
    ∃ entries : List (String × InstanceTypeData),
      (exampleDataSource (constantClient 200 "catalog: two types")).Read catalogStdlib []
          exampleConfig { Diagnostics := [], State := none }
        = ({ Diagnostics := []
             State := some { Id := TfString.value "instance_types"
                             InstanceTypes := TfMap.value entries } },
            [(exampleDataSource (constantClient 200 "catalog: two types")).client.AddAuthHeader
              { Method := "GET", URL := "https://cloud.lambda.ai/api/v1/instance-types",
                Header := [], Body := none }])
      ∧ entries.map Prod.fst = ["gpu_1x_a10", "gpu_8x_h100"]
      ∧ entries.length = 2
      ∧ (∀ key entry, (key, entry) ∈ entries ↔
          ∃ item, (key, item) ∈ exampleCatalog.Data
            ∧ entry = { Name := TfString.value item.InstanceType.Name
                        Description := TfString.value item.InstanceType.Description
                        GpuDescription := TfString.value item.InstanceType.GpuDescription
                        PriceCentsPerHour := TfInt64.value item.InstanceType.PriceCentsPerHour
                        Gpus := TfInt64.value item.InstanceType.Specs.Gpus
                        MemoryGib := TfInt64.value item.InstanceType.Specs.MemoryGib
                        StorageGib := TfInt64.value item.InstanceType.Specs.StorageGib
                        Vcpus := TfInt64.value item.InstanceType.Specs.Vcpus }) :=
  listing_mirrors_catalog catalogStdlib
    (exampleDataSource (constantClient 200 "catalog: two types")) [] exampleConfig
    { Diagnostics := [], State := none }
    { Method := "GET", URL := "https://cloud.lambda.ai/api/v1/instance-types",
      Header := [], Body := none }
    { StatusCode := 200, Body := "catalog: two types" } exampleCatalog
    rfl rfl rfl rfl rfl (by decide)

/-! ## Request headers -/

/-- The headers of a request built by `http.NewRequestWithContext` after AddAuthHeader. -/
theorem addAuthHeader_of_newRequest (lib : Stdlib) (c : ProviderConfig) (method url : String)
    (body : Option Json) (req : HttpRequest)
    (h : NewRequestWithContext lib method url body = .ok req) :
    c.AddAuthHeader req
      = { Method := method, URL := url
          Header := [("Authorization", "Bearer " ++ c.ApiKey), ("Accept", "application/json"),
                     ("Content-Type", "application/json")]
          Body := body } := by
  rw [request_of_newRequest lib method url body req h]
  simp [ProviderConfig.AddAuthHeader, Header.Set]

/-- The requests launchInstance sends: none, or the one it built. -/
theorem launchInstance_sent (lib : Stdlib) (r : InstanceResource) (sent : List HttpRequest)
    (q : LaunchRequest) :
    (r.launchInstance lib sent q).2 = sent
    ∨ ∃ req, NewRequestWithContext lib "POST"
          (r.client.Endpoint ++ "/api/v1/instance-operations/launch") (some q.Marshal)
          = .ok req
        ∧ (r.launchInstance lib sent q).2 = sent ++ [r.client.AddAuthHeader req] := by
  cases hreq : NewRequestWithContext lib "POST"
      (r.client.Endpoint ++ "/api/v1/instance-operations/launch") (some q.Marshal) with
  | error e =>
    left
    simp only [InstanceResource.launchInstance, hreq]
  | ok req =>
    right
    refine ⟨req, rfl, ?_⟩
    cases hdo : r.client.HTTPClient sent (r.client.AddAuthHeader req) with
    | error e => simp only [InstanceResource.launchInstance, hreq, hdo]
    | ok resp =>
      simp only [InstanceResource.launchInstance, hreq, hdo]
      repeat (first | rfl | split)

/-- The requests readInstance sends: none, or the one it built. -/
theorem readInstance_sent (lib : Stdlib) (r : InstanceResource) (sent : List HttpRequest)
    (data : InstanceModel) :
    (r.readInstance lib sent data).2.2 = sent
    ∨ ∃ req, NewRequestWithContext lib "GET"
          (r.client.Endpoint ++ "/api/v1/instances/" ++ data.Id.ValueString) none = .ok req
        ∧ (r.readInstance lib sent data).2.2 = sent ++ [r.client.AddAuthHeader req] := by
  cases hreq : NewRequestWithContext lib "GET"
      (r.client.Endpoint ++ "/api/v1/instances/" ++ data.Id.ValueString) none with
  | error e =>
    left
    simp only [InstanceResource.readInstance, hreq]
  | ok req =>
    right
    refine ⟨req, rfl, ?_⟩
    cases hdo : r.client.HTTPClient sent (r.client.AddAuthHeader req) with
    | error e => simp only [InstanceResource.readInstance, hreq, hdo]
    | ok resp =>
      simp only [InstanceResource.readInstance, hreq, hdo]
      repeat (first | rfl | split)

/-- The requests terminateInstance sends: none, or the one it built. -/
theorem terminateInstance_sent (lib : Stdlib) (r : InstanceResource)
    (sent : List HttpRequest) (id : String) :
    (r.terminateInstance lib sent id).2 = sent
    ∨ ∃ req, NewRequestWithContext lib "POST"
          (r.client.Endpoint ++ "/api/v1/instance-operations/terminate")
          (some (Json.obj [("instance_ids", Json.arr [Json.str id])])) = .ok req
        ∧ (r.terminateInstance lib sent id).2 = sent ++ [r.client.AddAuthHeader req] := by
  cases hreq : NewRequestWithContext lib "POST"
      (r.client.Endpoint ++ "/api/v1/instance-operations/terminate")
      (some (Json.obj [("instance_ids", Json.arr [Json.str id])])) with
  | error e =>
    left
    simp only [InstanceResource.terminateInstance, hreq]
  | ok req =>
    right
    refine ⟨req, rfl, ?_⟩
    cases hdo : r.client.HTTPClient sent (r.client.AddAuthHeader req) with
    | error e => simp only [InstanceResource.terminateInstance, hreq, hdo]
    | ok resp =>
      simp only [InstanceResource.terminateInstance, hreq, hdo]
      repeat (first | rfl | split)

/-- The requests the data source's Read sends: none, or the one it built. -/
theorem dataSourceRead_sent (lib : Stdlib) (d : InstanceTypesDataSource)
    (sent : List HttpRequest) (config : InstanceTypesDataSourceModel)
    (resp : DataSourceResponse) :
    (d.Read lib sent config resp).2 = sent
    ∨ ∃ req, NewRequestWithContext lib "GET" (d.client.Endpoint ++ "/api/v1/instance-types")
          none = .ok req
        ∧ (d.Read lib sent config resp).2 = sent ++ [d.client.AddAuthHeader req] := by
  cases hresp : Diagnostics.HasError resp.Diagnostics with
  | true =>
    left
    simp only [InstanceTypesDataSource.Read, Diagnostics.append_nil, hresp, if_true]
  | false =>
    cases hreq : NewRequestWithContext lib "GET"
        (d.client.Endpoint ++ "/api/v1/instance-types") none with
    | error e =>
      left
      simp [InstanceTypesDataSource.Read, Diagnostics.append_nil, hresp, hreq]
    | ok req =>
      right
      refine ⟨req, rfl, ?_⟩
      cases hdo : d.client.HTTPClient sent (d.client.AddAuthHeader req) with
      | error e => simp [InstanceTypesDataSource.Read, Diagnostics.append_nil, hresp, hreq, hdo]
      | ok resp1 =>
        simp only [InstanceTypesDataSource.Read, Diagnostics.append_nil, hresp, hreq, hdo,
          Bool.false_eq_true, if_false]
        split
        · rfl
        · split <;> rfl

/-- C12: for every configuration, AddAuthHeader leaves the method, the URL and the body of a
request as they are and makes `Bearer ` followed by the API key the one value of
`Authorization`, and `application/json` the one value of `Accept` and of `Content-Type`.
Every request that launchInstance, readInstance, terminateInstance or the data source's Read
sends has been through it: its headers are exactly these three. -/
theorem requests_carry_auth_headers (lib : Stdlib) (c : ProviderConfig)
    (sent : List HttpRequest) :
    (∀ req : HttpRequest,
      (c.AddAuthHeader req).Method = req.Method
      ∧ (c.AddAuthHeader req).URL = req.URL
      ∧ (c.AddAuthHeader req).Body = req.Body
      ∧ (∀ value, ("Authorization", value) ∈ (c.AddAuthHeader req).Header
          ↔ value = "Bearer " ++ c.ApiKey)
      ∧ (∀ value, ("Accept", value) ∈ (c.AddAuthHeader req).Header
          ↔ value = "application/json")
      ∧ (∀ value, ("Content-Type", value) ∈ (c.AddAuthHeader req).Header
          ↔ value = "application/json"))
    ∧ (∀ q : LaunchRequest, ∃ issued,
        (InstanceResource.launchInstance lib { client := c } sent q).2 = sent ++ issued
        ∧ ∀ x ∈ issued, x.Header
            = [("Authorization", "Bearer " ++ c.ApiKey), ("Accept", "application/json"),
               ("Content-Type", "application/json")])
    ∧ (∀ data : InstanceModel, ∃ issued,
        (InstanceResource.readInstance lib { client := c } sent data).2.2 = sent ++ issued
        ∧ ∀ x ∈ issued, x.Header
            = [("Authorization", "Bearer " ++ c.ApiKey), ("Accept", "application/json"),
               ("Content-Type", "application/json")])
    ∧ (∀ id : String, ∃ issued,
        (InstanceResource.terminateInstance lib { client := c } sent id).2 = sent ++ issued
        ∧ ∀ x ∈ issued, x.Header
            = [("Authorization", "Bearer " ++ c.ApiKey), ("Accept", "application/json"),
               ("Content-Type", "application/json")])
    ∧ (∀ (config : InstanceTypesDataSourceModel) (resp : DataSourceResponse), ∃ issued,
        (InstanceTypesDataSource.Read lib { client := c } sent config resp).2 = sent ++ issued
        ∧ ∀ x ∈ issued, x.Header
            = [("Authorization", "Bearer " ++ c.ApiKey), ("Accept", "application/json"),
               ("Content-Type", "application/json")]) := by
  have hnew : ∀ (method url : String) (body : Option Json) (req : HttpRequest),
      NewRequestWithContext lib method url body = .ok req →
      ∀ x ∈ [c.AddAuthHeader req], x.Header
        = [("Authorization", "Bearer " ++ c.ApiKey), ("Accept", "application/json"),
           ("Content-Type", "application/json")] := by
    intro method url body req hreq x hx
    rw [List.mem_singleton] at hx
    rw [hx, addAuthHeader_of_newRequest lib c method url body req hreq]
  refine ⟨?_, ?_, ?_, ?_, ?_⟩
  · intro req
    refine ⟨rfl, rfl, rfl, ?_, ?_, ?_⟩
    · intro value
      simp [ProviderConfig.AddAuthHeader, Header.Set, List.mem_filter]
    · intro value
      simp [ProviderConfig.AddAuthHeader, Header.Set, List.mem_filter]
    · intro value
      simp [ProviderConfig.AddAuthHeader, Header.Set, List.mem_filter]
  · intro q
    rcases launchInstance_sent lib { client := c } sent q with h | ⟨req, hreq, h⟩
    · exact ⟨[], by rw [h]; simp, by simp⟩
    · exact ⟨[c.AddAuthHeader req], h, hnew _ _ _ req hreq⟩
  · intro data
    rcases readInstance_sent lib { client := c } sent data with h | ⟨req, hreq, h⟩
    · exact ⟨[], by rw [h]; simp, by simp⟩
    · exact ⟨[c.AddAuthHeader req], h, hnew _ _ _ req hreq⟩
  · intro id
    rcases terminateInstance_sent lib { client := c } sent id with h | ⟨req, hreq, h⟩
    · exact ⟨[], by rw [h]; simp, by simp⟩
    · exact ⟨[c.AddAuthHeader req], h, hnew _ _ _ req hreq⟩
  · intro config resp
    rcases dataSourceRead_sent lib { client := c } sent config resp with h | ⟨req, hreq, h⟩
    · exact ⟨[], by rw [h]; simp, by simp⟩
    · exact ⟨[c.AddAuthHeader req], h, hnew _ _ _ req hreq⟩

/-! ## The launch request -/

/-- A list of elements that all convert to Go strings is the list of those strings. -/
theorem mapM_asGoString (elems : List TfString) (xs : List String)
    (h : elems.mapM TfString.asGoString = some xs) : elems = xs.map TfString.value := by
  induction elems generalizing xs with
  | nil =>
    rw [List.mapM_nil] at h
    cases h
    rfl
  | cons e rest ih =>
    rw [List.mapM_cons] at h
    cases e with
    | null => cases h
    | unknown => cases h
    | value s =>
      cases hr : rest.mapM TfString.asGoString with
      | none =>
        rw [hr] at h
        cases h
      | some ys =>
        rw [hr] at h
        cases h
        rw [List.map_cons, ← ih ys hr]

/-- A known list that converts gives the non-nil slice of its elements, in order. -/
theorem TfList.elementsAs_of_value (elems : List TfString) (target out : StringSlice)
    (h : (TfList.value elems).ElementsAs target = (out, [])) :
    out = StringSlice.mk out.elems ∧ elems = out.elems.map TfString.value := by
  cases hm : elems.mapM TfString.asGoString with
  | none =>
    simp only [TfList.ElementsAs, hm] at h
    simp at h
  | some xs =>
    simp only [TfList.ElementsAs, hm, Prod.mk.injEq, and_true] at h
    subst h
    exact ⟨rfl, mapM_asGoString elems xs hm⟩

/-- A converted list has length 0 exactly when the list is null or empty. -/
theorem TfList.elementsAs_len_eq_zero (l : TfList) (target out : StringSlice)
    (h : l.ElementsAs target = (out, [])) :
    out.len = 0 ↔ l = TfList.null ∨ l = TfList.value [] := by
  cases l with
  | null =>
    simp only [TfList.ElementsAs, Prod.mk.injEq, and_true] at h
    subst h
    simp [StringSlice.len, StringSlice.elems]
  | unknown => simp [TfList.ElementsAs] at h
  | value elems =>
    obtain ⟨_, h2⟩ := TfList.elementsAs_of_value elems target out h
    constructor
    · intro hlen
      right
      have : out.elems = [] := List.length_eq_zero.mp hlen
      rw [h2, this]
      rfl
    · intro hl
      rcases hl with hl | hl
      · cases hl
      · simp only [TfList.value.injEq] at hl
        rw [hl] at h2
        have : out.elems = [] := by
          cases hout : out.elems with
          | nil => rfl
          | cons a b => rw [hout] at h2; simp at h2
        simp [StringSlice.len, this]

/-- Once the launch request is built, launchInstance sends it and nothing else. -/
theorem launchInstance_sent_of_built (lib : Stdlib) (r : InstanceResource)
    (sent : List HttpRequest) (q : LaunchRequest) (req : HttpRequest)
    (hreq : NewRequestWithContext lib "POST"
      (r.client.Endpoint ++ "/api/v1/instance-operations/launch") (some q.Marshal) = .ok req) :
    (r.launchInstance lib sent q).2 = sent ++ [r.client.AddAuthHeader req] := by
  cases hdo : r.client.HTTPClient sent (r.client.AddAuthHeader req) with
  | error e => simp only [InstanceResource.launchInstance, hreq, hdo]
  | ok resp =>
    simp only [InstanceResource.launchInstance, hreq, hdo]
    repeat (first | rfl | split)

/-- When the plan's lists convert and the launch request is built, the first request Create
sends is the launch request. -/
theorem create_sends_launch_first (lib : Stdlib) (r : InstanceResource)
    (sent : List HttpRequest) (plan : InstanceModel) (resp : ResourceResponse)
    (keys fss : StringSlice) (req1 : HttpRequest)
    (hresp : Diagnostics.HasError resp.Diagnostics = false)
    (hkeys : plan.SshKeyNames.ElementsAs StringSlice.nil = (keys, []))
    (hfss : plan.FileSystemNames.ElementsAs StringSlice.nil = (fss, []))
    (hreq1 : NewRequestWithContext lib "POST"
      (r.client.Endpoint ++ "/api/v1/instance-operations/launch")
      (some (launchRequestOf plan keys fss).Marshal) = .ok req1) :
    ∃ rest, (r.Create lib sent plan resp).2 = sent ++ r.client.AddAuthHeader req1 :: rest := by
  have hL := launchInstance_sent_of_built lib r sent (launchRequestOf plan keys fss) req1 hreq1
  rw [create_eq_of_converted lib r sent plan resp keys fss hresp hkeys hfss]
  rcases hres : r.launchInstance lib sent (launchRequestOf plan keys fss) with ⟨res, sent1⟩
  rw [hres] at hL
  simp only at hL
  subst hL
  cases res with
  | error err => exact ⟨[], rfl⟩
  | ok instanceId =>
    simp only []
    rcases hread : r.readInstance lib (sent ++ [r.client.AddAuthHeader req1])
        { plan with Id := StringValue instanceId } with ⟨data, err, sent2⟩
    have hR := readInstance_sent lib r (sent ++ [r.client.AddAuthHeader req1])
      { plan with Id := StringValue instanceId }
    rw [hread] at hR
    simp only at hR
    have hsent2 : ∃ rest, sent2 = sent ++ r.client.AddAuthHeader req1 :: rest := by
      rcases hR with h | ⟨req2, _, h⟩
      · exact ⟨[], by rw [h]⟩
      · exact ⟨[r.client.AddAuthHeader req2], by rw [h]; simp⟩
    cases err with
    | none => simpa using hsent2
    | some e => simpa using hsent2

/-- C13: when the plan's lists convert to `keys` and `fss` and the launch request is built,
the first request Create sends has as body the marshalled launch request of the plan, in
which `region_name` and `instance_type_name` are the plan's strings and `ssh_key_names` is
`keys`, the plan's keys in the plan's order; `name` is absent when the plan's name is null
and is the plan's name otherwise (the empty string included); `file_system_names` is absent
exactly when the plan's list is null or empty and is `fss`, the plan's list in order,
otherwise. -/
theorem launch_request_mirrors_plan (lib : Stdlib) (r : InstanceResource)
    (sent : List HttpRequest) (plan : InstanceModel) (resp : ResourceResponse)
    (keys fss : StringSlice) (req1 : HttpRequest)
    (hresp : Diagnostics.HasError resp.Diagnostics = false)
    (hkeys : plan.SshKeyNames.ElementsAs StringSlice.nil = (keys, []))
    (hfss : plan.FileSystemNames.ElementsAs StringSlice.nil = (fss, []))
    (hreq1 : NewRequestWithContext lib "POST"
      (r.client.Endpoint ++ "/api/v1/instance-operations/launch")
      (some (launchRequestOf plan keys fss).Marshal) = .ok req1) :
    (∃ rest, (r.Create lib sent plan resp).2 = sent ++ r.client.AddAuthHeader req1 :: rest)
    ∧ (r.client.AddAuthHeader req1).Body = some (launchRequestOf plan keys fss).Marshal
    ∧ (launchRequestOf plan keys fss).Marshal.field "region_name"
        = some (Json.str plan.RegionName.ValueString)
    ∧ (launchRequestOf plan keys fss).Marshal.field "instance_type_name"
        = some (Json.str plan.InstanceTypeName.ValueString)
    ∧ (launchRequestOf plan keys fss).Marshal.field "ssh_key_names" = some keys.toJson
    ∧ (∀ elems, plan.SshKeyNames = TfList.value elems →
        keys = StringSlice.mk keys.elems ∧ elems = keys.elems.map TfString.value)
    ∧ (plan.Name.IsNull = true →
        (launchRequestOf plan keys fss).Marshal.field "name" = none)
    ∧ (plan.Name.IsNull = false →
        (launchRequestOf plan keys fss).Marshal.field "name"
          = some (Json.str plan.Name.ValueString))
    ∧ (∀ name, plan.Name = TfString.value name →
        (launchRequestOf plan keys fss).Marshal.field "name" = some (Json.str name))
    ∧ ((launchRequestOf plan keys fss).Marshal.field "file_system_names" = none
        ↔ plan.FileSystemNames = TfList.null ∨ plan.FileSystemNames = TfList.value [])
    ∧ (fss.len ≠ 0 →
        (launchRequestOf plan keys fss).Marshal.field "file_system_names" = some fss.toJson)
    ∧ (∀ elems, plan.FileSystemNames = TfList.value elems →
        fss = StringSlice.mk fss.elems ∧ elems = fss.elems.map TfString.value) := by
  have hlen := TfList.elementsAs_len_eq_zero plan.FileSystemNames StringSlice.nil fss hfss
  have hnameNull : plan.Name.IsNull = true →
      (launchRequestOf plan keys fss).Marshal.field "name" = none := by
    intro hn
    by_cases hz : fss.len = 0
    · simp [launchRequestOf, LaunchRequest.Marshal, Json.field, hn, hz, List.lookup]
    · simp [launchRequestOf, LaunchRequest.Marshal, Json.field, hn, hz, List.lookup]
  have hnameSet : plan.Name.IsNull = false →
      (launchRequestOf plan keys fss).Marshal.field "name"
        = some (Json.str plan.Name.ValueString) := by
    intro hn
    simp [launchRequestOf, LaunchRequest.Marshal, Json.field, hn, List.lookup]
  have hfsAbsent : fss.len = 0 →
      (launchRequestOf plan keys fss).Marshal.field "file_system_names" = none := by
    intro hz
    cases hn : plan.Name.IsNull
    · simp [launchRequestOf, LaunchRequest.Marshal, Json.field, hn, hz, List.lookup]
    · simp [launchRequestOf, LaunchRequest.Marshal, Json.field, hn, hz, List.lookup]
  have hfsSet : fss.len ≠ 0 →
      (launchRequestOf plan keys fss).Marshal.field "file_system_names"
        = some fss.toJson := by
    intro hz
    cases hn : plan.Name.IsNull
    · simp [launchRequestOf, LaunchRequest.Marshal, Json.field, hn, hz, List.lookup]
    · simp [launchRequestOf, LaunchRequest.Marshal, Json.field, hn, hz, List.lookup]
  refine ⟨create_sends_launch_first lib r sent plan resp keys fss req1 hresp hkeys hfss hreq1,
    ?_, ?_, ?_, ?_, ?_, hnameNull, hnameSet, ?_, ?_, hfsSet, ?_⟩
  · rw [request_of_newRequest lib _ _ _ req1 hreq1]
    rfl
  · cases hn : plan.Name.IsNull <;>
      simp [launchRequestOf, LaunchRequest.Marshal, Json.field, hn, List.lookup]
  · cases hn : plan.Name.IsNull <;>
      simp [launchRequestOf, LaunchRequest.Marshal, Json.field, hn, List.lookup]
  · cases hn : plan.Name.IsNull <;>
      simp [launchRequestOf, LaunchRequest.Marshal, Json.field, hn, List.lookup]
  · intro elems he
    rw [he] at hkeys
    exact TfList.elementsAs_of_value elems StringSlice.nil keys hkeys
  · intro name he
    have hn : plan.Name.IsNull = false := by rw [he]; rfl
    have hv : plan.Name.ValueString = name := by rw [he]; rfl
    rw [hnameSet hn, hv]
  · rw [← hlen]
    constructor
    · intro habs
      by_contra hz
      rw [hfsSet hz] at habs
      cases habs
    · exact hfsAbsent
  · intro elems he
    rw [he] at hfss
    exact TfList.elementsAs_of_value elems StringSlice.nil fss hfss

/-- The instance of C13 at a plan whose name is the empty string and whose filesystem list
is empty: the body has `name` with the empty string and no `file_system_names`. -/
theorem launch_request_mirrors_plan_witness :
    ((exampleResource (constantClient 200 "launch: i-123")).client.AddAuthHeader
        { Method := "POST", URL := "https://cloud.lambda.ai/api/v1/instance-operations/launch",
          Header := [], Body := some (launchRequestOf emptyNamePlan (StringSlice.mk ["k1"])
            (StringSlice.mk [])).Marshal }).Body
      = some (Json.obj [("region_name", Json.str "us-east-1"),
                        ("instance_type_name", Json.str "gpu_1x_a10"),
                        ("ssh_key_names", Json.arr [Json.str "k1"]),
                        ("name", Json.str "")]) :=
  (launch_request_mirrors_plan exampleStdlib
    (exampleResource (constantClient 200 "launch: i-123")) [] emptyNamePlan emptyResponse
    (StringSlice.mk ["k1"]) (StringSlice.mk [])
    { Method := "POST", URL := "https://cloud.lambda.ai/api/v1/instance-operations/launch",
      Header := [], Body := some (launchRequestOf emptyNamePlan (StringSlice.mk ["k1"])
        (StringSlice.mk [])).Marshal }
    rfl rfl rfl rfl).2.1

/-! ## The frame of readInstance -/

/-- The two outcomes of readInstance: an error with the model untouched, or no error and
the model with its four computed fields taken from a decoded response. -/
theorem readInstance_cases (lib : Stdlib) (r : InstanceResource) (sent : List HttpRequest)
    (data : InstanceModel) :
    (∃ err, (r.readInstance lib sent data).2.1 = some err
        ∧ (r.readInstance lib sent data).1 = data)
    ∨ (∃ ir : InstanceResponse, (r.readInstance lib sent data).2.1 = none
        ∧ (r.readInstance lib sent data).1
          = { data with Ip := TfString.value ir.Data.Ip
                        PrivateIp := TfString.value ir.Data.PrivateIp
                        Hostname := TfString.value ir.Data.Hostname
                        Status := TfString.value ir.Data.Status }) := by
  cases hreq : NewRequestWithContext lib "GET"
      (r.client.Endpoint ++ "/api/v1/instances/" ++ data.Id.ValueString) none with
  | error e =>
    left
    exact ⟨e, by simp only [InstanceResource.readInstance, hreq],
      by simp only [InstanceResource.readInstance, hreq]⟩
  | ok req =>
    cases hdo : r.client.HTTPClient sent (r.client.AddAuthHeader req) with
    | error e =>
      left
      rw [readInstance_transport lib r sent data req e hreq hdo]
      exact ⟨e, rfl, rfl⟩
    | ok resp =>
      by_cases hs : resp.StatusCode = 200
      · cases hdec : lib.decodeInstanceResponse resp.Body with
        | error e =>
          left
          rw [readInstance_undecodable lib r sent data req resp e hreq hdo hs hdec]
          exact ⟨e, rfl, rfl⟩
        | ok ir =>
          right
          rw [readInstance_ok lib r sent data req resp ir hreq hdo hs hdec]
          exact ⟨ir, rfl, rfl⟩
      · left
        rw [readInstance_status lib r sent data req resp hreq hdo hs]
        exact ⟨_, rfl, rfl⟩

/-- C14: readInstance leaves `id`, `name`, `region_name`, `instance_type_name`,
`ssh_key_names` and `file_system_names` of the model as they were, whatever the response
holds; when it returns an error the whole model is unchanged; when it returns none, the
model differs from the prior one at most in `ip`, `private_ip`, `hostname` and `status`,
which are those of a decoded response. -/
theorem readInstance_frame (lib : Stdlib) (r : InstanceResource) (sent : List HttpRequest)
    (data : InstanceModel) :
    ((r.readInstance lib sent data).1.Id = data.Id
      ∧ (r.readInstance lib sent data).1.Name = data.Name
      ∧ (r.readInstance lib sent data).1.RegionName = data.RegionName
      ∧ (r.readInstance lib sent data).1.InstanceTypeName = data.InstanceTypeName
      ∧ (r.readInstance lib sent data).1.SshKeyNames = data.SshKeyNames
      ∧ (r.readInstance lib sent data).1.FileSystemNames = data.FileSystemNames)
    ∧ ((r.readInstance lib sent data).2.1 ≠ none → (r.readInstance lib sent data).1 = data)
    ∧ ((r.readInstance lib sent data).2.1 = none →
        ∃ ir : InstanceResponse,
          (r.readInstance lib sent data).1
            = { data with Ip := TfString.value ir.Data.Ip
                          PrivateIp := TfString.value ir.Data.PrivateIp
                          Hostname := TfString.value ir.Data.Hostname
                          Status := TfString.value ir.Data.Status }) := by
  rcases readInstance_cases lib r sent data with ⟨err, he, hd⟩ | ⟨ir, he, hd⟩
  · refine ⟨?_, fun _ => hd, ?_⟩
    · rw [hd]
      exact ⟨rfl, rfl, rfl, rfl, rfl, rfl⟩
    · intro hnone
      rw [he] at hnone
      cases hnone
  · refine ⟨?_, ?_, fun _ => ⟨ir, hd⟩⟩
    · rw [hd]
      exact ⟨rfl, rfl, rfl, rfl, rfl, rfl⟩
    · intro hsome
      exact absurd he hsome

/-- The instance of C14 at a response whose `id` and `name` are not those of the record:
the record keeps its `id` and `name`, and only the four computed fields change. -/
theorem readInstance_frame_witness :
    ((exampleResource (constantClient 200 "")).readInstance mismatchStdlib []
        exampleRecord).1.Id = TfString.value "i-123"
    ∧ ((exampleResource (constantClient 200 "")).readInstance mismatchStdlib []
        exampleRecord).1.Name = TfString.null
    ∧ ((exampleResource (constantClient 200 "")).readInstance mismatchStdlib []
        exampleRecord).1
      = { exampleRecord with Ip := TfString.value "5.6.7.8"
                             PrivateIp := TfString.value "10.0.0.9"
                             Hostname := TfString.value "host-9"
                             Status := TfString.value "booting" } :=
  ⟨(readInstance_frame mismatchStdlib (exampleResource (constantClient 200 "")) []
      exampleRecord).1.1,
   (readInstance_frame mismatchStdlib (exampleResource (constantClient 200 "")) []
      exampleRecord).1.2.1,
   rfl⟩

end Lambda
